import Mathlib

/-!
# Audiosurf (ATmega328P) — shallow embedding of the game core

The C sources are `src/src/main.c` and the peripheral libraries.  The target
is an 8-bit AVR: `int` is 16 bits, `unsigned long` is 32 bits, `uint8_t`
operands are promoted to `int` before arithmetic.  Machine integers are
modelled as `Nat`/`Int` with the reduction modulo `2^w` written out at every
place where the C code stores into a narrower type.

The linked list `g_block_list` is modelled as a `List Block` (head of the
list = first node).  The pseudo random generator and the allocator are
modelled as streams of outcomes stored in the global state, so that the
theorems quantify over all random outcomes and all allocation outcomes.
Console output, LEDs and the buzzer are not part of the state of the game;
the LED functions of `led.c` are modelled on the registers `DDRB` and `PORTB`
of their own, and the calls of `main` on the part of the machine state that
decides what the timer interrupt handler finds behind `g_game_state`.
-/

namespace Audiosurf

/-! ## Configuration constants (main.c, lines 14-37) -/

def MAX_LEVEL : Nat := 10
def INITIAL_LEVEL : Nat := 1
def MAX_LIVES : Nat := 4
def DISPLAY_WIDTH : Nat := 4
def SPACESHIP_POSITION_COUNT : Nat := 8
def BLOCK_SPAWN_PROBABILITY : Nat := 30
def BUTTON_1 : Nat := 1
def BUTTON_2 : Nat := 2
def BUTTON_3 : Nat := 3
def BASE_GAME_SPEED : Nat := 800

/-- Bit number of port C pin 1, as given by the AVR device header for the
ATmega328P (`avr/io.h`, which is part of the toolchain). -/
def PC1 : Nat := 1

/-! ## Machine integer helpers -/

/-- Store into a `uint8_t`. -/
def u8 (n : Nat) : Nat := n % 256

/-- Store into a `uint16_t` (also: `unsigned int` arithmetic on AVR). -/
def u16 (n : Nat) : Nat := n % 65536

/-- Store into an `unsigned long` (32 bits on AVR). -/
def u32 (n : Nat) : Nat := n % 4294967296

/-- Result of a 16-bit signed `int` operation, wrapped into -32768..32767. -/
def i16 (x : Int) : Int := (x + 32768) % 65536 - 32768

/-- Conversion of an `int` to `unsigned long`: reduction modulo `2^32`. -/
def i16_to_u32 (x : Int) : Nat := (x % 4294967296).toNat

/-! ## Data model (main.c, lines 47-73) -/

/-- The C struct `GameState`; `level`, `lives`, `spaceship_position` and
`game_running` are `uint8_t`, `score` is `uint16_t`, `blocks_dodged` is
`unsigned long`. -/
structure GameState where
  level : Nat
  lives : Nat
  spaceship_position : Nat
  score : Nat
  game_running : Nat
  blocks_dodged : Nat
  deriving DecidableEq, Repr

/-- The C struct `Block` without its `next` pointer; both fields are
`uint8_t`. -/
structure Block where
  position : Nat
  column : Nat
  deriving DecidableEq, Repr

/-- The globals of main.c while `g_game_state` points to a live `GameState`,
together with the static `last_info_time` of `displayGameInfo`, the stream of
values that the next calls of `rand()` return and the stream of outcomes of
the next calls of `malloc` (`true` = a node was allocated). -/
structure Sys where
  g_game_state : GameState
  g_block_list : List Block
  g_timer_counter : Nat
  g_display_refresh_flag : Nat
  g_game_tick_flag : Nat
  g_button_pressed : Nat
  g_collision_flash : Nat
  g_display_buffer : List Nat
  g_current_column : Nat
  last_info_time : Nat
  rand_stream : List Nat
  malloc_stream : List Bool
  deriving DecidableEq, Repr

/-! ## Scoring (main.c, lines 675-678 and 602-603) -/

/-- Function `calculateScore` (main.c, lines 675-678): `level * level * 50` is computed in 16-bit `int`, then
converted to `unsigned long` and added to `blocks_dodged * 10` (`unsigned
long` arithmetic); the sum is returned as `uint16_t`. -/
def calculateScore (level : Nat) (blocks_dodged : Nat) : Nat :=
  let bonus : Int := i16 (i16 ((u8 level : Int) * (u8 level : Int)) * 50)
  let base : Nat := u32 (u32 blocks_dodged * 10)
  u16 (u32 (base + i16_to_u32 bonus))

/-- The assignment `g_game_state->score = calculateScore(...)` of `gameOver`
(main.c, line 603); the statements before it in `gameOver` do not write
`level` or `blocks_dodged`. -/
def gameOver_score (g : GameState) : GameState :=
  { g with score := calculateScore g.level g.blocks_dodged }

/-! ## Spawner (main.c, lines 461-475 and 546-558) -/

/-- The value of `spawn_chance` after lines 463-464 of `spawnBlocks`: the sum
is computed in `int` and stored into a `uint8_t` before the cap is applied. -/
def spawn_chance (level : Nat) : Nat :=
  let c := u8 (BLOCK_SPAWN_PROBABILITY + level * 5)
  if c > 80 then 80 else c

/-- The value of `max_spawns` (line 467). -/
def max_spawns (level : Nat) : Nat := u8 (level / 3 + 1)

/-- One call of `rand()`: the next value of the stream (a non-negative
`int`); an exhausted stream yields 0. -/
def rand (s : Sys) : Nat × Sys :=
  match s.rand_stream with
  | [] => (0, s)
  | r :: rs => (r, { s with rand_stream := rs })

/-- One call of `malloc(sizeof(Block))`: `true` when a node was obtained; an
exhausted stream means the allocation succeeds. -/
def malloc (s : Sys) : Bool × Sys :=
  match s.malloc_stream with
  | [] => (true, s)
  | ok :: rest => (ok, { s with malloc_stream := rest })

/-- Function `addBlock` (main.c, lines 546-558): on allocation failure nothing changes, otherwise the new node
becomes the head of the list. -/
def addBlock (position column : Nat) (s : Sys) : Sys :=
  let (ok, s1) := malloc s
  if ok then
    { s1 with g_block_list := { position := u8 position, column := u8 column } :: s1.g_block_list }
  else s1

/-- The `for` loop of `spawnBlocks` with `n` iterations left. -/
def spawnLoop (chance : Nat) : Nat → Sys → Sys
  | 0, s => s
  | n + 1, s =>
    let (r, s1) := rand s
    if r % 100 < chance then
      let (r2, s2) := rand s1
      spawnLoop chance n (addBlock (r2 % SPACESHIP_POSITION_COUNT) (DISPLAY_WIDTH - 1) s2)
    else spawnLoop chance n s1

/-- Function `spawnBlocks` (main.c, lines 461-475): the chance and the number
of attempts are computed from the level, then the loop runs. -/
def spawnBlocks (s : Sys) : Sys :=
  spawnLoop (spawn_chance s.g_game_state.level) (max_spawns s.g_game_state.level) s

/-! ## Mover (main.c, lines 477-503) -/

/-- The `while` loop of `moveBlocks` over the remaining nodes: every node has
its column decremented (`uint8_t`, so 0 becomes 255); a node whose column
became 255 is unlinked and counted, the others stay in order. -/
def moveLoop : List Block → GameState → List Block × GameState
  | [], g => ([], g)
  | b :: rest, g =>
    let c := u8 (b.column + 255)
    if c = 255 then
      moveLoop rest
        { g with blocks_dodged := u32 (g.blocks_dodged + 1),
                 score := u16 (g.score + 10 * g.level) }
    else
      let r := moveLoop rest g
      ({ b with column := c } :: r.1, r.2)

/-- Function `moveBlocks` (main.c, lines 477-503): the loop runs over the whole
list, starting at the head. -/
def moveBlocks (s : Sys) : Sys :=
  let r := moveLoop s.g_block_list s.g_game_state
  { s with g_block_list := r.1, g_game_state := r.2 }

/-! ## Collision resolver (main.c, lines 505-544) -/

/-- The scan of `checkCollisions`: index of the node at which the loop
breaks, if any. -/
def findCollision (ship : Nat) : List Block → Option Nat
  | [] => none
  | b :: rest =>
    if b.column = 0 ∧ b.position = ship then some 0
    else (findCollision ship rest).map (· + 1)

/-- Unlinking the node with index `i` (lines 524-532): the head is replaced
by its successor, otherwise the predecessor is made to skip the node. -/
def unlinkNode : Nat → List Block → List Block
  | _, [] => []
  | 0, _ :: rest => rest
  | i + 1, b :: rest => b :: unlinkNode i rest

/-- Function `checkCollisions` (main.c, lines 505-544): on a hit a life is
taken, the flash countdown is armed and the node is unlinked; afterwards
`game_running` is cleared when no life is left. -/
def checkCollisions (s : Sys) : Sys :=
  let s1 :=
    match findCollision s.g_game_state.spaceship_position s.g_block_list with
    | some i =>
      { s with g_game_state := { s.g_game_state with lives := u8 (s.g_game_state.lives + 255) },
               g_collision_flash := 50,
               g_block_list := unlinkNode i s.g_block_list }
    | none => s
  if s1.g_game_state.lives = 0 then
    { s1 with g_game_state := { s1.g_game_state with game_running := 0 } }
  else s1

/-! ## Game tick (main.c, lines 393-407 and 680-690) -/

/-- Function `displayGameInfo` (main.c, lines 680-690): only the static `last_info_time` is written. -/
def displayGameInfo (s : Sys) : Sys :=
  if u32 (u16 s.g_timer_counter + 4294967296 - u32 s.last_info_time) > 5000 then
    { s with last_info_time := u16 s.g_timer_counter }
  else s

/-- The level progression step of `updateGame` (lines 399-404). -/
def levelUp (s : Sys) : Sys :=
  let new_level := u8 (u32 (s.g_game_state.blocks_dodged / 10 + s.g_game_state.level))
  if new_level > s.g_game_state.level ∧ new_level ≤ MAX_LEVEL then
    { s with g_game_state := { s.g_game_state with level := new_level } }
  else s

/-- Function `updateGame` (main.c, lines 393-407): move, spawn, collision
check, level progression, info output, in this order. -/
def updateGame (s : Sys) : Sys :=
  displayGameInfo (levelUp (checkCollisions (spawnBlocks (moveBlocks s))))

/-- The continuation condition of the `while` loop of `playGame`
(line 362). -/
def playGame_continue (s : Sys) : Bool :=
  decide (s.g_game_state.game_running ≠ 0 ∧ s.g_game_state.lives > 0)

/-! ## Buttons (button.c, lines 13-23) and input (main.c, lines 447-459) -/

/-- Function `buttonPushed` on the sampled value of `PINC`; for an id outside 1..4
the C function returns without a value (`none`). -/
def buttonPushed (pinc : Nat) (button : Nat) : Option Nat :=
  if button < 1 ∨ button > 4 then none
  else
    let pin := PC1 + (button - 1)
    if pinc &&& (1 <<< pin) = 0 then some 1 else some 0

/-- C truth test of the `int` returned by a call; every call below passes an
id in 1..4, so the result is always `some`. -/
def cTrue (r : Option Nat) : Bool :=
  match r with
  | some v => v != 0
  | none => false

/-- Function `handleInput`; `pinc_a` is the value of `PINC` sampled by the call
`buttonPushed(BUTTON_1)`, `pinc_b` the value sampled by the call
`buttonPushed(BUTTON_3)` (only made when the first call returned 0).  The
guards exclude wrap-around of the `uint8_t` position. -/
def handleInput (pinc_a pinc_b : Nat) (s : Sys) : Sys :=
  if cTrue (buttonPushed pinc_a BUTTON_1) then
    if s.g_game_state.spaceship_position > 0 then
      { s with g_game_state :=
          { s.g_game_state with spaceship_position := s.g_game_state.spaceship_position - 1 } }
    else s
  else if cTrue (buttonPushed pinc_b BUTTON_3) then
    if s.g_game_state.spaceship_position < SPACESHIP_POSITION_COUNT - 1 then
      { s with g_game_state :=
          { s.g_game_state with spaceship_position := s.g_game_state.spaceship_position + 1 } }
    else s
  else s

/-! ## Level selection (main.c, lines 268-351 and 667-673) -/

/-- The expression `(pot_value * MAX_LEVEL) / 1023 + 1` stored into a
`uint8_t` (lines 277 and 286); `pot_value` is `uint16_t`, so the arithmetic
is 16-bit unsigned. -/
def potLevel (pot_value : Nat) : Nat :=
  u8 (u16 (u16 (u16 pot_value * MAX_LEVEL) / 1023 + 1))

/-- The value of `abs(pot_value - last_pot_value)` (line 290): a 16-bit unsigned
difference, converted to `int`. -/
def potDelta (pot_value last_pot_value : Nat) : Int :=
  i16 (Int.natAbs (i16 (u16 (u16 pot_value + 65536 - u16 last_pot_value))))

/-- What one pass of the selection loop reads from the hardware: the ADC
value, the flag `g_button_pressed`, and the values of `PINC` sampled by the
calls `buttonPushed(BUTTON_1)`, `buttonPushed(BUTTON_3)` and
`buttonPushed(BUTTON_2)`. -/
structure SelectInput where
  pot_value : Nat
  button_pressed : Nat
  pinc_1 : Nat
  pinc_3 : Nat
  pinc_2 : Nat
  deriving DecidableEq, Repr

/-- The local variables of `selectLevel`. -/
structure SelectState where
  selected_level : Nat
  seed_counter : Nat
  last_pot_value : Nat
  last_pot_level : Nat
  deriving DecidableEq, Repr

/-- The `while (1)` loop of `selectLevel` over the inputs of its passes;
`none` when the inputs end before the middle button confirms.  The result is
the locals when the loop is left together with the value of
`g_button_pressed` at that moment: the `break` (line 316) leaves the loop
before the reset of the flag (line 319), so the flag keeps the non-zero value
that the pass read, while every other pass that saw the flag set resets it.
The writes to the display buffer are left out: they do not feed back into
the locals. -/
def selectLoop : SelectState → List SelectInput → Option (SelectState × Nat)
  | _, [] => none
  | st, inp :: rest =>
    let seed := u32 (st.seed_counter + 1)
    let pot_value := u16 inp.pot_value
    let pot_level := potLevel pot_value
    let st1 : SelectState :=
      if potDelta pot_value st.last_pot_value > 50 ∧ pot_level ≠ st.selected_level then
        { selected_level := pot_level, seed_counter := seed,
          last_pot_value := pot_value, last_pot_level := pot_level }
      else { st with seed_counter := seed }
    if inp.button_pressed ≠ 0 then
      if cTrue (buttonPushed inp.pinc_1 BUTTON_1) then
        if st1.selected_level > 1 then
          selectLoop { st1 with selected_level := st1.selected_level - 1,
                                last_pot_value := pot_value,
                                last_pot_level := st1.selected_level - 1 } rest
        else selectLoop st1 rest
      else if cTrue (buttonPushed inp.pinc_3 BUTTON_3) then
        if st1.selected_level < MAX_LEVEL then
          selectLoop { st1 with selected_level := st1.selected_level + 1,
                                last_pot_value := pot_value,
                                last_pot_level := st1.selected_level + 1 } rest
        else selectLoop st1 rest
      else if cTrue (buttonPushed inp.pinc_2 BUTTON_2) then some (st1, inp.button_pressed)
      else selectLoop st1 rest
    else selectLoop st1 rest

/-- Function `updateGameStateByReference` applied to the live game state. -/
def updateGameStateByReference (g : GameState) (new_level : Nat) : GameState :=
  { g with level := u8 new_level }

/-- Function `selectLevel`: `adc0` is the ADC value read before the loop (line 276),
`inputs` are the readings of the passes of the loop.  The result is the
global state after line 347, when the loop was left: the selected level is
written to the game state, and `g_button_pressed` is still set, since the
confirming pass leaves the loop without resetting it.  What the interrupt
handlers write during the call is not part of the result (it enters the play
loop through `interrupts`), and the display buffer is as the last completed
pass left it, which is not modelled; a confirmation in the first pass leaves
the buffer untouched. -/
def selectLevel (adc0 : Nat) (inputs : List SelectInput) (s : Sys) : Option Sys :=
  let last_pot_value := u16 adc0
  let last_pot_level := potLevel last_pot_value
  let st0 : SelectState :=
    { selected_level := last_pot_level, seed_counter := 0,
      last_pot_value := last_pot_value, last_pot_level := last_pot_level }
  (selectLoop st0 inputs).map fun r =>
    { s with
      g_game_state := updateGameStateByReference s.g_game_state r.1.selected_level,
      g_button_pressed := r.2 }

/-- The global state that `initGame` leaves (lines 195-211), for given
streams of random and allocation outcomes. -/
def initGame (rs : List Nat) (ms : List Bool) (buf : List Nat) (col : Nat) (info : Nat) : Sys :=
  { g_game_state :=
      { level := INITIAL_LEVEL, lives := MAX_LIVES, spaceship_position := 4,
        score := 0, game_running := 1, blocks_dodged := 0 },
    g_block_list := [],
    g_timer_counter := 0,
    g_display_refresh_flag := 0,
    g_game_tick_flag := 0,
    g_button_pressed := 0,
    g_collision_flash := 0,
    g_display_buffer := buf,
    g_current_column := col,
    last_info_time := info,
    rand_stream := rs,
    malloc_stream := ms }

/-! ## Renderer (main.c, lines 409-445) -/

def DISPLAY_POS_1 : Nat := 0

/-- Bit pattern of `~x` for a 16-bit `int` holding a value in 0..65535. -/
def not16 (x : Nat) : Nat := 65535 - u16 x

/-- The statement `g_display_buffer[c] &= ~pattern`. -/
def clearBits (buf : List Nat) (c : Nat) (pattern : Nat) : List Nat :=
  buf.set c (u8 (buf.getD c 0 &&& not16 pattern))

/-- The `while` loop of `renderDisplay` over the remaining nodes. -/
def renderBlocks : List Block → List Nat → List Nat
  | [], buf => buf
  | b :: rest, buf =>
    if b.column < DISPLAY_WIDTH then
      renderBlocks rest (clearBits buf b.column (u8 (1 <<< b.position)))
    else renderBlocks rest buf

/-- The value of `show_spaceship` (lines 416-424). -/
def show_spaceship (s : Sys) : Bool :=
  if s.g_collision_flash > 0 then decide (s.g_collision_flash % 10 < 5)
  else decide ((u16 s.g_timer_counter / 25) % 2 = 0)

/-- Function `renderDisplay`: the buffer is reset to all ones, the bit of the
ship is cleared in column 0 when the ship is shown, then the bit of every
block on the display is cleared in the block's column. -/
def renderDisplay (s : Sys) : Sys :=
  let buf0 : List Nat := [255, 255, 255, 255]
  let buf1 :=
    if show_spaceship s then
      clearBits buf0 DISPLAY_POS_1 (u8 (1 <<< s.g_game_state.spaceship_position))
    else buf0
  { s with g_display_buffer := renderBlocks s.g_block_list buf1 }

/-! ## Play loop (main.c, lines 353-391) -/

/-- What the interrupt handlers did between two passes of the play loop, and
what the pass reads from the pins: the new value of `g_timer_counter` and of
`g_current_column`, whether the timer handler set the refresh flag and the
tick flag, whether the pin change handler set `g_button_pressed`, and the
values of `PINC` sampled by the two calls of `buttonPushed` in
`handleInput`. -/
structure LoopInput where
  timer_counter : Nat
  current_column : Nat
  refresh : Bool
  tick : Bool
  button : Bool
  pinc_a : Nat
  pinc_b : Nat
  deriving DecidableEq, Repr

/-- The writes of the interrupt handlers to the globals that the play loop
reads. -/
def interrupts (inp : LoopInput) (s : Sys) : Sys :=
  { s with
    g_timer_counter := u16 inp.timer_counter,
    g_current_column := inp.current_column % 4,
    g_display_refresh_flag := if inp.refresh then 1 else s.g_display_refresh_flag,
    g_game_tick_flag := if inp.tick then 1 else s.g_game_tick_flag,
    g_button_pressed := if inp.button then 1 else s.g_button_pressed }

/-- The display refresh of a pass (lines 364-367). -/
def refreshStage (s : Sys) : Sys :=
  if s.g_display_refresh_flag ≠ 0 then
    { renderDisplay s with g_display_refresh_flag := 0 }
  else s

/-- The game tick of a pass (lines 370-373). -/
def tickStage (s : Sys) : Sys :=
  if s.g_game_tick_flag ≠ 0 then
    { updateGame s with g_game_tick_flag := 0 }
  else s

/-- The input handling of a pass (lines 376-379). -/
def inputStage (inp : LoopInput) (s : Sys) : Sys :=
  if s.g_button_pressed ≠ 0 then
    { handleInput inp.pinc_a inp.pinc_b s with g_button_pressed := 0 }
  else s

/-- The flash countdown of a pass (lines 382-387). -/
def flashStage (s : Sys) : Sys :=
  if s.g_collision_flash > 0 then
    { s with g_collision_flash := s.g_collision_flash - 1 }
  else s

/-- The body of the `while` loop of `playGame` (lines 363-387). -/
def playGameBody (inp : LoopInput) (s : Sys) : Sys :=
  flashStage (inputStage inp (tickStage (refreshStage s)))

/-- The `while` loop of `playGame`, one element of `inputs` per pass; the
interrupts are taken to run between the passes.  The result is the state
when the loop is left or the inputs end. -/
def playGame : List LoopInput → Sys → Sys
  | [], s => s
  | inp :: rest, s =>
    if playGame_continue s then playGame rest (playGameBody inp (interrupts inp s))
    else s

/-! ## Timer interrupt (main.c, lines 119-121) -/

/-- The value of `game_speed` in the timer interrupt handler: the difference
is computed in `int` and stored into a `uint16_t` before the floor is
applied. -/
def game_speed (level : Nat) : Nat :=
  let g := (((BASE_GAME_SPEED : Int) - (u8 level : Int) * 60) % 65536).toNat
  if g < 150 then 150 else g

/-! ## Round controller (main.c, lines 141-178, 180-193, 616-621) -/

/-- The places of `main` between its calls. -/
inductive MainPc where
  | setup
  | banner
  | atInitGame
  | atShowTutorial
  | atSelectLevel
  | atPlayGame
  | atGameOver
  | waitButton
  | halted
  deriving DecidableEq, Repr

/-- The part of the machine state that decides whether the timer interrupt
handler can run and what it finds behind `g_game_state`: the compare
interrupt enable bit (set by `initTimers`), the global interrupt flag (set by
`sei()` in `initInterrupts`), and the pointer (`none` = `NULL`). -/
structure Ctl where
  pc : MainPc
  timer_irq : Bool
  global_irq : Bool
  g_game_state : Option GameState
  deriving DecidableEq, Repr

/-- What a step of `main` takes from outside: whether `malloc` in `initGame`
succeeds, the level that `selectLevel` writes, and the game state at the end
of `playGame`. -/
structure MainInput where
  malloc_ok : Bool
  selected_level : Nat
  played : GameState
  deriving DecidableEq, Repr

/-- The state in which `main` starts: `g_game_state` is statically `NULL`,
interrupts are off. -/
def mainStart : Ctl :=
  { pc := .setup, timer_irq := false, global_irq := false, g_game_state := none }

/-- One call of `main` (the call named by `pc`). -/
def mainStep (inp : MainInput) (c : Ctl) : Ctl :=
  match c.pc with
  | .setup => { c with pc := .banner, timer_irq := true, global_irq := true }
  | .banner => { c with pc := .atInitGame }
  | .atInitGame =>
    if inp.malloc_ok then
      { c with pc := .atShowTutorial,
               g_game_state := some (initGame [] [] [] 0 0).g_game_state }
    else { c with pc := .halted, g_game_state := none }
  | .atShowTutorial => { c with pc := .atSelectLevel }
  | .atSelectLevel =>
    { c with pc := .atPlayGame,
             g_game_state := c.g_game_state.map
               (fun g => updateGameStateByReference g inp.selected_level) }
  | .atPlayGame => { c with pc := .atGameOver, g_game_state := c.g_game_state.map (fun _ => inp.played) }
  | .atGameOver => { c with pc := .waitButton, g_game_state := none }
  | .waitButton => { c with pc := .atInitGame }
  | .halted => c

/-- The steps of `main` for a list of inputs. -/
def mainRun : List MainInput → Ctl → Ctl
  | [], c => c
  | inp :: rest, c => mainRun rest (mainStep inp c)

/-- Whether the timer compare interrupt can be taken. -/
def timerCanFire (c : Ctl) : Bool := c.timer_irq && c.global_irq

/-- The read `g_game_state->level` of the timer interrupt handler (line 120);
`none` when the pointer is `NULL`. -/
def timerISR_level (c : Ctl) : Option Nat := c.g_game_state.map (fun g => g.level)

/-! ## LEDs (led.c) -/

def NUMBER_OF_LEDS : Nat := 4

/-- Bit number of port B pin 2, as given by the AVR device header for the
ATmega328P. -/
def PB2 : Nat := 2

/-- The registers `DDRB` and `PORTB` (8 bits each). -/
structure Ports where
  DDRB : Nat
  PORTB : Nat
  deriving DecidableEq, Repr

/-- The mask `1 << (PB2 + lednumber)` for a LED number that passed the range
check. -/
def ledMask (lednumber : Int) : Nat := 1 <<< (PB2 + lednumber.toNat)

/-- Function `enableLed` (led.c, lines 9-14). -/
def enableLed (lednumber : Int) (io : Ports) : Ports :=
  if lednumber < 0 ∨ lednumber > (NUMBER_OF_LEDS : Int) - 1 then io
  else { io with DDRB := u8 (io.DDRB ||| ledMask lednumber) }

/-- Function `lightUpLed` (led.c, lines 16-21). -/
def lightUpLed (lednumber : Int) (io : Ports) : Ports :=
  if lednumber < 0 ∨ lednumber > (NUMBER_OF_LEDS : Int) - 1 then io
  else { io with PORTB := u8 (io.PORTB &&& not16 (ledMask lednumber)) }

/-- Function `lightDownLed` (led.c, lines 23-27). -/
def lightDownLed (lednumber : Int) (io : Ports) : Ports :=
  if lednumber < 0 ∨ lednumber > 3 then io
  else { io with PORTB := u8 (io.PORTB ||| ledMask lednumber) }

/-- Function `lightToggleOneLed` (led.c, lines 88-91). -/
def lightToggleOneLed (lednumber : Int) (io : Ports) : Ports :=
  if lednumber < 0 ∨ lednumber > (NUMBER_OF_LEDS : Int) - 1 then io
  else { io with PORTB := u8 (io.PORTB ^^^ ledMask lednumber) }

/-- Function `isLightOn` (led.c, lines 157-163). -/
def isLightOn (lednumber : Int) (io : Ports) : Nat :=
  if lednumber < 0 ∨ lednumber > (NUMBER_OF_LEDS : Int) - 1 then 0
  else if io.PORTB &&& ledMask lednumber = 0 then 1 else 0

/-! ## Button release detection (button.c, lines 25-47) -/

/-- The initial contents of the static table `previousState` (line 26): three
entries. -/
def previousStateInit : List Nat := [1, 1, 1]

/-- The index `button - 1` with which `buttonReleased` reads and writes the
table. -/
def previousStateIndex (button : Int) : Nat := (button - 1).toNat

/-- What a call of `buttonReleased` does: it returns at its range check
without a value, or it accesses the table outside its bounds at `index`, or
it returns `wasPressed` and leaves the table `previousState`. -/
inductive ReleaseResult where
  | noValue
  | outOfBounds (index : Nat)
  | done (wasPressed : Nat) (previousState : List Nat)
  deriving DecidableEq, Repr

/-- Function `buttonReleased` on the sampled value of `PINC` and the
contents of the table: after the range check the pin state is masked out,
the table entry `button - 1` is read to compute `wasPressed`, and the entry
is overwritten with the current state (1 or 0). -/
def buttonReleased (pinc : Nat) (button : Int) (previousState : List Nat) : ReleaseResult :=
  if button < 1 ∨ button > 4 then .noValue
  else
    let pin := PC1 + (button - 1).toNat
    let currentState := u8 (pinc &&& (1 <<< pin))
    match previousState[previousStateIndex button]? with
    | none => .outOfBounds (previousStateIndex button)
    | some prev =>
      .done (if prev = 0 ∧ currentState ≠ 0 then 1 else 0)
        (previousState.set (previousStateIndex button) (if currentState ≠ 0 then 1 else 0))

/-! ## Auxiliary definitions used to state the theorems -/

/-- Number of nodes whose column becomes 255 when decremented, that is, for
`uint8_t` columns, the nodes in column 0. -/
def offScreen (l : List Block) : Nat :=
  l.countP (fun b => u8 (b.column + 255) = 255)

/-- The effect of the loop of `moveBlocks` on the list alone. -/
def shiftList (l : List Block) : List Block :=
  (l.filter (fun b => decide (u8 (b.column + 255) ≠ 255))).map
    (fun b => { b with column := u8 (b.column + 255) })

/-- A state in the middle of a round: level 1 with 9 blocks dodged, one block
about to leave the screen and one block about to reach the ship. -/
def sampleTick : Sys :=
  { g_game_state :=
      { level := 1, lives := 4, spaceship_position := 4, score := 90,
        game_running := 1, blocks_dodged := 9 },
    g_block_list := [⟨4, 1⟩, ⟨2, 0⟩],
    g_timer_counter := 6000,
    g_display_refresh_flag := 0,
    g_game_tick_flag := 1,
    g_button_pressed := 0,
    g_collision_flash := 0,
    g_display_buffer := [255, 255, 255, 255],
    g_current_column := 0,
    last_info_time := 0,
    rand_stream := [10, 5],
    malloc_stream := [] }

/-- As `sampleTick`, with a single life left. -/
def sampleLastLife : Sys :=
  { sampleTick with g_game_state := { sampleTick.g_game_state with lives := 1 } }

/-- A state late in a long round at level 10, with the 16-bit score close to
its maximum; the block list is that of `sampleTick`. -/
def sampleHighScore : Sys :=
  { sampleTick with
    g_game_state :=
      { level := 10, lives := 4, spaceship_position := 4, score := 65500,
        game_running := 1, blocks_dodged := 655 } }

/-- A state in which two blocks are in column 0 at the ship's position. -/
def sampleDouble : Sys :=
  { sampleTick with g_block_list := [⟨5, 3⟩, ⟨1, 0⟩, ⟨4, 0⟩, ⟨4, 0⟩, ⟨4, 2⟩] }

/-- The sample state after a block was spawned at position 6 and, later, a
block at position 7 that has moved one column. -/
def sampleSpawned : Sys :=
  { sampleTick with g_block_list := ⟨7, 2⟩ :: (addBlock 6 (DISPLAY_WIDTH - 1) sampleTick).g_block_list }

/-- As `sampleTick`, with the ship at position 0. -/
def sampleTop : Sys :=
  { sampleTick with g_game_state := { sampleTick.g_game_state with spaceship_position := 0 } }

/-- As `sampleTick`, with the ship at position 7. -/
def sampleBottom : Sys :=
  { sampleTick with g_game_state := { sampleTick.g_game_state with spaceship_position := 7 } }

/-- A state of a long round in which the level stayed at 9 because
`9 + blocks_dodged / 10` was above MAX_LEVEL; 2570 blocks have been dodged
and the display is empty. -/
def sampleStuck : Sys :=
  { sampleTick with
    g_game_state :=
      { level := 9, lives := 4, spaceship_position := 4, score := 23121,
        game_running := 1, blocks_dodged := 2570 },
    g_block_list := [],
    rand_stream := [99, 99, 99, 99] }

/-- A state whose counter `blocks_dodged` holds the largest `unsigned long`
value, with one block in column 0. -/
def sampleCounterMax : Sys :=
  { sampleTick with
    g_game_state := { sampleTick.g_game_state with level := 10, blocks_dodged := 4294967295 },
    g_block_list := [⟨2, 0⟩] }

/-- A state at level 3 with two blocks on the display and four random values
pending. -/
def sampleSpawn : Sys :=
  { sampleTick with
    g_game_state := { sampleTick.g_game_state with level := 3 },
    rand_stream := [10, 5, 90, 77] }

/-- The sample tick state at a time at which the ship is shown
(`g_timer_counter / 25` is even, no flash). -/
def sampleRender : Sys :=
  { sampleTick with g_timer_counter := 6010, g_display_buffer := [1, 2, 3, 4] }

/-- A pass of the play loop in which only the tick flag was set. -/
def tickPass (t : Nat) : LoopInput :=
  { timer_counter := t, current_column := 0, refresh := false, tick := true,
    button := false, pinc_a := 15, pinc_b := 15 }

/-- What one pass of the play loop, entered in state `s`, can add to the
level: `blocks_dodged / 10` as the pass leaves it when the pass runs a game
tick, nothing otherwise. -/
def tickBudget (inp : LoopInput) (s : Sys) : Nat :=
  if s.g_game_tick_flag ≠ 0 then (playGameBody inp s).g_game_state.blocks_dodged / 10 else 0

/-- The sum of `tickBudget` over the passes that `playGame` makes. -/
def levelBudget : List LoopInput → Sys → Nat
  | [], _ => 0
  | inp :: rest, s =>
    if playGame_continue s then
      tickBudget inp (interrupts inp s)
        + levelBudget rest (playGameBody inp (interrupts inp s))
    else 0

/-- Fifteen passes of the play loop with one game tick each. -/
def fifteenTicks : List LoopInput :=
  (List.range 15).map (fun i => tickPass (740 * (i + 1)))

/-- Inputs of a step of `main`: the allocation succeeds, level 3 is selected,
and the round ends at level 10 with no lives left. -/
def sampleMainInput : MainInput :=
  { malloc_ok := true, selected_level := 3,
    played := { level := 10, lives := 0, spaceship_position := 4, score := 1200,
                game_running := 0, blocks_dodged := 37 } }

/-! ## Scoring: theorems -/

/-- For a level in 1..10 the level bonus fits the 16-bit `int`. -/
theorem bonus_small (level : Nat) (h1 : 1 ≤ level) (h2 : level ≤ MAX_LEVEL) :
    i16_to_u32 (i16 (i16 ((u8 level : Int) * (u8 level : Int)) * 50)) = level * level * 50 := by
  unfold MAX_LEVEL at h2
  interval_cases level <;> decide

/-- C1 (counterexample): at level 10 with 6054 blocks dodged the exact value
is 60540 + 5000 = 65540, while `calculateScore` returns 4, which is what
`gameOver` stores. -/
theorem calculateScore_truncates :
    (1 ≤ 10 ∧ 10 ≤ MAX_LEVEL) ∧
    6054 * 10 + 10 * 10 * 50 = 65540 ∧
    calculateScore 10 6054 = 4 ∧
    calculateScore 10 6054 ≠ 6054 * 10 + 10 * 10 * 50 ∧
    (gameOver_score { level := 10, lives := 0, spaceship_position := 4, score := 60540,
                      game_running := 0, blocks_dodged := 6054 }).score = 4 := by
  decide

/-- C1 (amended): for every level in 1..MAX_LEVEL and every blocks_dodged, the
score that `gameOver` stores is `calculateScore level blocks_dodged`, which is
`blocks_dodged*10 + level*level*50` reduced modulo 65536; it is that integer
itself whenever the integer is below 65536. -/
theorem calculateScore_mod (g : GameState) (h1 : 1 ≤ g.level) (h2 : g.level ≤ MAX_LEVEL) :
    (gameOver_score g).score = calculateScore g.level g.blocks_dodged ∧
    calculateScore g.level g.blocks_dodged
      = (g.blocks_dodged * 10 + g.level * g.level * 50) % 65536 ∧
    (g.blocks_dodged * 10 + g.level * g.level * 50 < 65536 →
      calculateScore g.level g.blocks_dodged
        = g.blocks_dodged * 10 + g.level * g.level * 50) := by
  have hb := bonus_small g.level h1 h2
  have hmod : calculateScore g.level g.blocks_dodged
      = (g.blocks_dodged * 10 + g.level * g.level * 50) % 65536 := by
    unfold calculateScore
    simp only [hb]
    unfold u16 u32
    omega
  refine ⟨rfl, hmod, fun hlt => ?_⟩
  rw [hmod]
  exact Nat.mod_eq_of_lt hlt

/-- Witness for `calculateScore_mod`: level 3 with 25 blocks dodged gives
250 + 450 = 700, which `gameOver` stores. -/
theorem calculateScore_mod_witness :
    (1 ≤ 3 ∧ 3 ≤ MAX_LEVEL) ∧
    25 * 10 + 3 * 3 * 50 < 65536 ∧
    calculateScore 3 25 = 25 * 10 + 3 * 3 * 50 ∧
    (gameOver_score ⟨3, 0, 4, 750, 0, 25⟩).score = calculateScore 3 25 :=
  ⟨by decide, by decide,
    (calculateScore_mod ⟨3, 0, 4, 750, 0, 25⟩ (by decide) (by decide)).2.2 (by decide),
    (calculateScore_mod ⟨3, 0, 4, 750, 0, 25⟩ (by decide) (by decide)).1⟩

/-! ## Frame lemmas for the steps of a tick -/

theorem rand_game (s : Sys) : (rand s).2.g_game_state = s.g_game_state := by
  unfold rand; split <;> rfl

theorem malloc_game (s : Sys) : (malloc s).2.g_game_state = s.g_game_state := by
  unfold malloc; split <;> rfl

theorem addBlock_game (p c : Nat) (s : Sys) :
    (addBlock p c s).g_game_state = s.g_game_state := by
  unfold addBlock
  simp only []
  split <;> simp [malloc_game]

theorem spawnLoop_game (chance n : Nat) (s : Sys) :
    (spawnLoop chance n s).g_game_state = s.g_game_state := by
  induction n generalizing s with
  | zero => rfl
  | succ n ih =>
    unfold spawnLoop
    simp only []
    split
    · rw [ih, addBlock_game, rand_game, rand_game]
    · rw [ih, rand_game]

theorem spawnBlocks_game (s : Sys) : (spawnBlocks s).g_game_state = s.g_game_state :=
  spawnLoop_game _ _ s

theorem offScreen_cons_hit (b : Block) (rest : List Block) (h : u8 (b.column + 255) = 255) :
    offScreen (b :: rest) = offScreen rest + 1 := by
  unfold offScreen
  rw [List.countP_cons_of_pos]
  simpa using h

theorem offScreen_cons_miss (b : Block) (rest : List Block) (h : ¬ u8 (b.column + 255) = 255) :
    offScreen (b :: rest) = offScreen rest := by
  unfold offScreen
  rw [List.countP_cons_of_neg]
  simpa using h

/-- The loop of `moveBlocks` writes only `blocks_dodged` and `score`. -/
theorem moveLoop_frame (l : List Block) (g : GameState) :
    (moveLoop l g).2.level = g.level ∧ (moveLoop l g).2.lives = g.lives ∧
    (moveLoop l g).2.spaceship_position = g.spaceship_position ∧
    (moveLoop l g).2.game_running = g.game_running := by
  induction l generalizing g with
  | nil => exact ⟨rfl, rfl, rfl, rfl⟩
  | cons b rest ih =>
    unfold moveLoop
    simp only []
    split
    · exact ih _
    · exact ih g

/-- The score after the loop of `moveBlocks`: `10 * level` is added once per
node that left the screen, in 16-bit arithmetic. -/
theorem moveLoop_score (l : List Block) (g : GameState) (h : g.score < 65536) :
    (moveLoop l g).2.score = u16 (g.score + offScreen l * (10 * g.level)) := by
  induction l generalizing g with
  | nil =>
    simp only [moveLoop, offScreen, List.countP_nil, Nat.zero_mul, Nat.add_zero, u16]
    omega
  | cons b rest ih =>
    unfold moveLoop
    simp only []
    split
    · rename_i hc
      rw [offScreen_cons_hit b rest hc, ih _ (Nat.mod_lt _ (by decide))]
      simp only [u16, Nat.add_mul, Nat.one_mul]
      omega
    · rename_i hc
      rw [offScreen_cons_miss b rest hc]
      exact ih g h

/-- The counter after the loop of `moveBlocks`: one is added per node that
left the screen, in 32-bit arithmetic. -/
theorem moveLoop_dodged (l : List Block) (g : GameState) (h : g.blocks_dodged < 4294967296) :
    (moveLoop l g).2.blocks_dodged = u32 (g.blocks_dodged + offScreen l) := by
  induction l generalizing g with
  | nil =>
    simp only [moveLoop, offScreen, List.countP_nil, Nat.add_zero, u32]
    omega
  | cons b rest ih =>
    unfold moveLoop
    simp only []
    split
    · rename_i hc
      rw [offScreen_cons_hit b rest hc, ih _ (Nat.mod_lt _ (by decide))]
      simp only [u32]
      omega
    · rename_i hc
      rw [offScreen_cons_miss b rest hc]
      exact ih g h

/-- The list after the loop of `moveBlocks`: the nodes that stay, in order,
with decremented columns. -/
theorem moveLoop_list (l : List Block) (g : GameState) :
    (moveLoop l g).1 = shiftList l := by
  induction l generalizing g with
  | nil => rfl
  | cons b rest ih =>
    unfold moveLoop shiftList
    simp only []
    split
    · rename_i hc
      rw [ih, List.filter_cons_of_neg (by simpa using hc)]
      rfl
    · rename_i hc
      rw [ih, List.filter_cons_of_pos (by simpa using hc)]
      rfl

theorem moveBlocks_game (s : Sys) :
    (moveBlocks s).g_game_state = (moveLoop s.g_block_list s.g_game_state).2 := rfl

theorem moveBlocks_list (s : Sys) :
    (moveBlocks s).g_block_list = (moveLoop s.g_block_list s.g_game_state).1 := rfl

/-- The function `checkCollisions` writes only `lives` and `game_running` of the game
state. -/
theorem checkCollisions_frame (s : Sys) :
    (checkCollisions s).g_game_state.level = s.g_game_state.level ∧
    (checkCollisions s).g_game_state.score = s.g_game_state.score ∧
    (checkCollisions s).g_game_state.blocks_dodged = s.g_game_state.blocks_dodged ∧
    (checkCollisions s).g_game_state.spaceship_position = s.g_game_state.spaceship_position := by
  unfold checkCollisions
  cases findCollision s.g_game_state.spaceship_position s.g_block_list <;>
    simp only [] <;> split <;> exact ⟨rfl, rfl, rfl, rfl⟩

/-- The function `checkCollisions` either keeps `lives` or decrements it once. -/
theorem checkCollisions_lives (s : Sys) :
    (checkCollisions s).g_game_state.lives = s.g_game_state.lives ∨
    (checkCollisions s).g_game_state.lives = u8 (s.g_game_state.lives + 255) := by
  unfold checkCollisions
  cases findCollision s.g_game_state.spaceship_position s.g_block_list <;>
    simp only [] <;> split
  · exact Or.inl rfl
  · exact Or.inl rfl
  · exact Or.inr rfl
  · exact Or.inr rfl

/-- The final test of `checkCollisions`. -/
theorem checkCollisions_running (s : Sys)
    (h : (checkCollisions s).g_game_state.lives = 0) :
    (checkCollisions s).g_game_state.game_running = 0 := by
  unfold checkCollisions at h ⊢
  cases hf : findCollision s.g_game_state.spaceship_position s.g_block_list <;>
    simp only [hf] at h ⊢ <;> split <;> first | rfl | skip
  · rename_i hne
    rw [if_neg hne] at h
    exact absurd h hne
  · rename_i hne
    rw [if_neg hne] at h
    exact absurd h hne

theorem levelUp_frame (s : Sys) :
    (levelUp s).g_game_state.lives = s.g_game_state.lives ∧
    (levelUp s).g_game_state.score = s.g_game_state.score ∧
    (levelUp s).g_game_state.blocks_dodged = s.g_game_state.blocks_dodged ∧
    (levelUp s).g_game_state.spaceship_position = s.g_game_state.spaceship_position ∧
    (levelUp s).g_game_state.game_running = s.g_game_state.game_running := by
  unfold levelUp
  simp only []
  split <;> exact ⟨rfl, rfl, rfl, rfl, rfl⟩

theorem displayGameInfo_game (s : Sys) :
    (displayGameInfo s).g_game_state = s.g_game_state := by
  unfold displayGameInfo
  split <;> rfl

/-- The level after the level progression step. -/
theorem levelUp_level (s : Sys) :
    (levelUp s).g_game_state.level =
      if u8 (u32 (s.g_game_state.blocks_dodged / 10 + s.g_game_state.level)) > s.g_game_state.level ∧
          u8 (u32 (s.g_game_state.blocks_dodged / 10 + s.g_game_state.level)) ≤ MAX_LEVEL
      then u8 (u32 (s.g_game_state.blocks_dodged / 10 + s.g_game_state.level))
      else s.g_game_state.level := by
  unfold levelUp
  simp only []
  split <;> rfl

/-- The game state that enters the level progression step of a tick has the
level the tick started with. -/
theorem preLevelUp_level (s : Sys) :
    (checkCollisions (spawnBlocks (moveBlocks s))).g_game_state.level = s.g_game_state.level := by
  rw [(checkCollisions_frame _).1, spawnBlocks_game, moveBlocks_game]
  exact (moveLoop_frame _ _).1

/-! ## Level invariant -/

/-- C3: a tick started at a level in 1..MAX_LEVEL ends at a level that is at
least the starting level and at most MAX_LEVEL, for every block list,
`blocks_dodged`, random outcomes and allocation outcomes. -/
theorem updateGame_level_bounds (s : Sys)
    (_h1 : 1 ≤ s.g_game_state.level) (h2 : s.g_game_state.level ≤ MAX_LEVEL) :
    s.g_game_state.level ≤ (updateGame s).g_game_state.level ∧
    (updateGame s).g_game_state.level ≤ MAX_LEVEL := by
  unfold updateGame
  rw [displayGameInfo_game, levelUp_level, preLevelUp_level]
  split
  · rename_i h
    exact ⟨Nat.le_of_lt h.1, h.2⟩
  · exact ⟨Nat.le_refl _, h2⟩

/-- Witness for `updateGame_level_bounds`: the sample tick raises the level
from 1 to 2. -/
theorem updateGame_level_bounds_witness :
    (1 ≤ sampleTick.g_game_state.level ∧ sampleTick.g_game_state.level ≤ MAX_LEVEL) ∧
    (sampleTick.g_game_state.level ≤ (updateGame sampleTick).g_game_state.level ∧
      (updateGame sampleTick).g_game_state.level ≤ MAX_LEVEL) ∧
    (updateGame sampleTick).g_game_state.level = 2 :=
  ⟨by decide, updateGame_level_bounds sampleTick (by decide) (by decide), by decide⟩

/-! ## Lives -/

/-- The lives after a tick are the lives after its collision step, and the
collision step starts with the lives the tick started with. -/
theorem updateGame_lives (s : Sys) :
    (updateGame s).g_game_state.lives = s.g_game_state.lives ∨
    (updateGame s).g_game_state.lives = u8 (s.g_game_state.lives + 255) := by
  have h := checkCollisions_lives (spawnBlocks (moveBlocks s))
  rw [spawnBlocks_game, moveBlocks_game, (moveLoop_frame _ _).2.1] at h
  unfold updateGame
  rw [displayGameInfo_game, (levelUp_frame _).1]
  exact h

/-- C7: a tick started with lives in 1..MAX_LIVES leaves lives at most the
lives before and lower by at most 1, for every block list, random outcomes
and allocation outcomes. -/
theorem updateGame_lives_step (s : Sys)
    (h1 : 1 ≤ s.g_game_state.lives) (h2 : s.g_game_state.lives ≤ MAX_LIVES) :
    (updateGame s).g_game_state.lives ≤ s.g_game_state.lives ∧
    s.g_game_state.lives ≤ (updateGame s).g_game_state.lives + 1 := by
  unfold MAX_LIVES at h2
  rcases updateGame_lives s with h | h <;> rw [h]
  · omega
  · unfold u8; omega

/-- Witness for `updateGame_lives_step`: the sample tick has a collision and
goes from 4 lives to 3. -/
theorem updateGame_lives_step_witness :
    (1 ≤ sampleTick.g_game_state.lives ∧ sampleTick.g_game_state.lives ≤ MAX_LIVES) ∧
    ((updateGame sampleTick).g_game_state.lives ≤ sampleTick.g_game_state.lives ∧
      sampleTick.g_game_state.lives ≤ (updateGame sampleTick).g_game_state.lives + 1) ∧
    (updateGame sampleTick).g_game_state.lives = 3 :=
  ⟨by decide, updateGame_lives_step sampleTick (by decide) (by decide), by decide⟩

/-- The function `handleInput` writes only the position of the ship. -/
theorem handleInput_frame (a b : Nat) (s : Sys) :
    (handleInput a b s).g_game_state.lives = s.g_game_state.lives ∧
    (handleInput a b s).g_game_state.game_running = s.g_game_state.game_running := by
  unfold handleInput
  split
  · split <;> exact ⟨rfl, rfl⟩
  · split
    · split <;> exact ⟨rfl, rfl⟩
    · exact ⟨rfl, rfl⟩

/-- C8: in the state a tick leaves, `lives == 0` implies `game_running == 0`,
and the continuation condition of the play loop is false, also when an input
is handled before the condition is evaluated; for every starting state. -/
theorem updateGame_dead_stops (s : Sys)
    (h : (updateGame s).g_game_state.lives = 0) :
    (updateGame s).g_game_state.game_running = 0 ∧
    playGame_continue (updateGame s) = false ∧
    ∀ a b : Nat, playGame_continue (handleInput a b (updateGame s)) = false := by
  have hr : (updateGame s).g_game_state.game_running = 0 := by
    unfold updateGame at h ⊢
    rw [displayGameInfo_game] at h ⊢
    rw [(levelUp_frame _).1] at h
    rw [(levelUp_frame _).2.2.2.2]
    exact checkCollisions_running _ h
  refine ⟨hr, ?_, fun a b => ?_⟩
  · simp [playGame_continue, hr]
  · simp [playGame_continue, (handleInput_frame a b _).2, hr]

/-- Witness for `updateGame_dead_stops`: with one life left the sample tick
ends the round. -/
theorem updateGame_dead_stops_witness :
    (updateGame sampleLastLife).g_game_state.lives = 0 ∧
    ((updateGame sampleLastLife).g_game_state.game_running = 0 ∧
      playGame_continue (updateGame sampleLastLife) = false ∧
      ∀ a b : Nat, playGame_continue (handleInput a b (updateGame sampleLastLife)) = false) :=
  ⟨by decide, updateGame_dead_stops sampleLastLife (by decide)⟩

/-! ## Score -/

/-- C9 (counterexample): from a state with score 65500 at level 10 in which
one block leaves the screen, the tick ends with score 64. -/
theorem updateGame_score_wraps :
    sampleHighScore.g_game_state.score = 65500 ∧
    (updateGame sampleHighScore).g_game_state.score = 64 ∧
    ¬ (sampleHighScore.g_game_state.score ≤ (updateGame sampleHighScore).g_game_state.score) := by
  decide

/-- C9 (amended): a tick adds `10 * level` to the 16-bit score once per block
that leaves the screen, modulo 65536; the score after the tick is at least
the score before whenever that sum stays below 65536. -/
theorem updateGame_score (s : Sys) (h : s.g_game_state.score < 65536) :
    (updateGame s).g_game_state.score
      = (s.g_game_state.score + offScreen s.g_block_list * (10 * s.g_game_state.level)) % 65536 ∧
    (s.g_game_state.score + offScreen s.g_block_list * (10 * s.g_game_state.level) < 65536 →
      s.g_game_state.score ≤ (updateGame s).g_game_state.score) := by
  have hs : (updateGame s).g_game_state.score
      = (s.g_game_state.score + offScreen s.g_block_list * (10 * s.g_game_state.level)) % 65536 := by
    unfold updateGame
    rw [displayGameInfo_game, (levelUp_frame _).2.1, (checkCollisions_frame _).2.1,
      spawnBlocks_game, moveBlocks_game, moveLoop_score _ _ h]
    rfl
  refine ⟨hs, fun hlt => ?_⟩
  rw [hs, Nat.mod_eq_of_lt hlt]
  exact Nat.le_add_right _ _

/-- Witness for `updateGame_score`: the sample tick goes from score 90 to
100. -/
theorem updateGame_score_witness :
    sampleTick.g_game_state.score < 65536 ∧
    sampleTick.g_game_state.score
        + offScreen sampleTick.g_block_list * (10 * sampleTick.g_game_state.level) < 65536 ∧
    (updateGame sampleTick).g_game_state.score
      = (sampleTick.g_game_state.score
          + offScreen sampleTick.g_block_list * (10 * sampleTick.g_game_state.level)) % 65536 ∧
    sampleTick.g_game_state.score ≤ (updateGame sampleTick).g_game_state.score ∧
    (updateGame sampleTick).g_game_state.score = 100 :=
  ⟨by decide, by decide, (updateGame_score sampleTick (by decide)).1,
    (updateGame_score sampleTick (by decide)).2 (by decide), by decide⟩

/-! ## Collision resolution -/

/-- The scan stops at the first node that passes the collision test. -/
theorem findCollision_first (ship : Nat) (l : List Block)
    (h : ∃ b ∈ l, (b.column = 0 ∧ b.position = ship)) :
    ∃ pre b post, l = pre ++ b :: post ∧ (b.column = 0 ∧ b.position = ship) ∧ (∀ x ∈ pre, ¬ (x.column = 0 ∧ x.position = ship)) ∧
      findCollision ship l = some pre.length := by
  induction l with
  | nil =>
    obtain ⟨b, hb, _⟩ := h
    cases hb
  | cons a rest ih =>
    by_cases ha : (a.column = 0 ∧ a.position = ship)
    · refine ⟨[], a, rest, rfl, ha, ?_, ?_⟩
      · intro x hx; cases hx
      · unfold findCollision
        rw [if_pos ha]
        rfl
    · have hrest : ∃ b ∈ rest, (b.column = 0 ∧ b.position = ship) := by
        obtain ⟨b, hb, hhit⟩ := h
        rcases List.mem_cons.mp hb with rfl | hb
        · exact absurd hhit ha
        · exact ⟨b, hb, hhit⟩
      obtain ⟨pre, b, post, hl, hb, hpre, hf⟩ := ih hrest
      refine ⟨a :: pre, b, post, ?_, hb, ?_, ?_⟩
      · rw [hl]; rfl
      · intro x hx
        rcases List.mem_cons.mp hx with rfl | hx
        · exact ha
        · exact hpre x hx
      · unfold findCollision
        rw [if_neg ha, hf]
        rfl

/-- Unlinking the node behind a prefix removes exactly that node. -/
theorem unlinkNode_append (pre : List Block) (b : Block) (post : List Block) :
    unlinkNode pre.length (pre ++ b :: post) = pre ++ post := by
  induction pre with
  | nil => rfl
  | cons a pre ih =>
    show a :: unlinkNode pre.length (pre ++ b :: post) = a :: (pre ++ post)
    rw [ih]

/-- C5: when at least one block is in column 0 at the ship's position,
`checkCollisions` removes exactly the first such block of the list (all
other blocks stay, unchanged and in order) and decrements `lives` once
(as a `uint8_t`; from a value in 1..255 the result is one less). -/
theorem checkCollisions_removes_first (s : Sys)
    (h : ∃ b ∈ s.g_block_list, b.column = 0 ∧ b.position = s.g_game_state.spaceship_position) :
    ∃ pre b post,
      s.g_block_list = pre ++ b :: post ∧
      (b.column = 0 ∧ b.position = s.g_game_state.spaceship_position) ∧
      (∀ x ∈ pre, ¬ (x.column = 0 ∧ x.position = s.g_game_state.spaceship_position)) ∧
      (checkCollisions s).g_block_list = pre ++ post ∧
      (checkCollisions s).g_block_list.length + 1 = s.g_block_list.length ∧
      (checkCollisions s).g_game_state.lives = (s.g_game_state.lives + 255) % 256 ∧
      (1 ≤ s.g_game_state.lives → s.g_game_state.lives < 256 →
        (checkCollisions s).g_game_state.lives + 1 = s.g_game_state.lives) := by
  obtain ⟨pre, b, post, hl, hb, hpre, hf⟩ :=
    findCollision_first s.g_game_state.spaceship_position s.g_block_list h
  have hlist : (checkCollisions s).g_block_list = pre ++ post := by
    unfold checkCollisions
    simp only [hf]
    split <;> simp only [] <;> rw [hl, unlinkNode_append]
  have hlives : (checkCollisions s).g_game_state.lives = (s.g_game_state.lives + 255) % 256 := by
    unfold checkCollisions
    simp only [hf]
    split <;> rfl
  refine ⟨pre, b, post, hl, hb, hpre, hlist, ?_, hlives, fun h1 h2 => ?_⟩
  · rw [hlist, hl]
    simp only [List.length_append, List.length_cons]
    omega
  · rw [hlives]
    omega

/-- Witness for `checkCollisions_removes_first`: two blocks coincide with the
ship; only the first of them is removed and one life is lost. -/
theorem checkCollisions_removes_first_witness :
    (checkCollisions sampleDouble).g_block_list = [⟨5, 3⟩, ⟨1, 0⟩, ⟨4, 0⟩, ⟨4, 2⟩] ∧
    (checkCollisions sampleDouble).g_game_state.lives = 3 ∧
    ∃ pre b post,
      sampleDouble.g_block_list = pre ++ b :: post ∧
      (b.column = 0 ∧ b.position = sampleDouble.g_game_state.spaceship_position) ∧
      (∀ x ∈ pre, ¬ (x.column = 0 ∧ x.position = sampleDouble.g_game_state.spaceship_position)) ∧
      (checkCollisions sampleDouble).g_block_list = pre ++ post ∧
      (checkCollisions sampleDouble).g_block_list.length + 1 = sampleDouble.g_block_list.length ∧
      (checkCollisions sampleDouble).g_game_state.lives
        = (sampleDouble.g_game_state.lives + 255) % 256 ∧
      (checkCollisions sampleDouble).g_game_state.lives + 1 = sampleDouble.g_game_state.lives := by
  obtain ⟨pre, b, post, h1, h2, h3, h4, h5, h6, h7⟩ :=
    checkCollisions_removes_first sampleDouble ⟨⟨4, 0⟩, by decide, by decide⟩
  exact ⟨by decide, by decide, pre, b, post, h1, h2, h3, h4, h5, h6,
    h7 (by decide) (by decide)⟩

/-! ## Lifetime of a block -/

theorem shiftList_append (a b : List Block) :
    shiftList (a ++ b) = shiftList a ++ shiftList b := by
  unfold shiftList
  rw [List.filter_append, List.map_append]

theorem shiftList_iterate_append (k : Nat) (a b : List Block) :
    shiftList^[k] (a ++ b) = shiftList^[k] a ++ shiftList^[k] b := by
  induction k generalizing a b with
  | zero => rfl
  | succ k ih =>
    rw [Function.iterate_succ_apply, Function.iterate_succ_apply,
      Function.iterate_succ_apply, shiftList_append, ih]

/-- The list after `k` applications of `moveBlocks` depends on the list
alone. -/
theorem moveBlocks_iterate_list (k : Nat) (s : Sys) :
    (moveBlocks^[k] s).g_block_list = shiftList^[k] s.g_block_list := by
  induction k generalizing s with
  | zero => rfl
  | succ k ih =>
    rw [Function.iterate_succ_apply, Function.iterate_succ_apply, ih,
      moveBlocks_list, moveLoop_list]

/-- A lone block in the rightmost column: three steps lower its column to
2, 1, 0; the fourth removes it. -/
theorem shiftList_iterate_single (p : Nat) (k : Nat) (hk : k ≤ 4) :
    shiftList^[k] [⟨p, 3⟩] = if k = 4 then [] else [⟨p, 3 - k⟩] := by
  interval_cases k <;> simp [shiftList, u8]

/-- C6: a block added by `addBlock` with column `DISPLAY_WIDTH-1`, whatever
blocks are behind it (the list it was added to) and in front of it (`pre`,
added later), is still in the list after each of the first three
applications of `moveBlocks`, its column being 3 minus the number of
applications and its position unchanged, and after the fourth application
the list holds the other blocks only. -/
theorem spawned_block_lifetime (s0 : Sys) (p : Nat) (hm : (malloc s0).1 = true)
    (s : Sys) (pre : List Block)
    (hs : s.g_block_list = pre ++ (addBlock p (DISPLAY_WIDTH - 1) s0).g_block_list) :
    (addBlock p (DISPLAY_WIDTH - 1) s0).g_block_list = ⟨p % 256, 3⟩ :: s0.g_block_list ∧
    (∀ k, 1 ≤ k → k ≤ DISPLAY_WIDTH - 1 →
      (moveBlocks^[k] s).g_block_list =
        (moveBlocks^[k] { s with g_block_list := pre }).g_block_list
          ++ ⟨p % 256, DISPLAY_WIDTH - 1 - k⟩
          :: (moveBlocks^[k] { s with g_block_list := s0.g_block_list }).g_block_list) ∧
    (moveBlocks^[DISPLAY_WIDTH] s).g_block_list =
      (moveBlocks^[DISPLAY_WIDTH] { s with g_block_list := pre }).g_block_list
        ++ (moveBlocks^[DISPLAY_WIDTH] { s with g_block_list := s0.g_block_list }).g_block_list := by
  have hadd : (addBlock p (DISPLAY_WIDTH - 1) s0).g_block_list
      = ⟨p % 256, 3⟩ :: s0.g_block_list := by
    unfold addBlock
    simp only [hm, if_true]
    unfold malloc
    split <;> rfl
  have hsplit : ∀ k, k ≤ 4 → (moveBlocks^[k] s).g_block_list =
      shiftList^[k] pre ++ (if k = 4 then [] else [⟨p % 256, 3 - k⟩])
        ++ shiftList^[k] s0.g_block_list := by
    intro k hk
    rw [moveBlocks_iterate_list, hs, hadd,
      show (⟨p % 256, 3⟩ : Block) :: s0.g_block_list = [⟨p % 256, 3⟩] ++ s0.g_block_list from rfl,
      shiftList_iterate_append, shiftList_iterate_append, shiftList_iterate_single _ k hk,
      List.append_assoc]
  refine ⟨hadd, fun k h1 h3 => ?_, ?_⟩
  · have h3' : k ≤ 3 := h3
    rw [hsplit k (by omega), moveBlocks_iterate_list, moveBlocks_iterate_list,
      if_neg (by omega)]
    simp [DISPLAY_WIDTH]
  · rw [show DISPLAY_WIDTH = 4 from rfl, hsplit 4 (by omega), moveBlocks_iterate_list,
      moveBlocks_iterate_list]
    simp

/-- Witness for `spawned_block_lifetime`: a block spawned at position 6 into
the sample state, with one later block in front of it. -/
theorem spawned_block_lifetime_witness :
    (moveBlocks^[3] sampleSpawned).g_block_list = [⟨6, 0⟩] ∧
    (moveBlocks^[4] sampleSpawned).g_block_list = [] ∧
    ((addBlock 6 (DISPLAY_WIDTH - 1) sampleTick).g_block_list
        = ⟨6 % 256, 3⟩ :: sampleTick.g_block_list ∧
    (∀ k, 1 ≤ k → k ≤ DISPLAY_WIDTH - 1 →
      (moveBlocks^[k] sampleSpawned).g_block_list =
        (moveBlocks^[k] { sampleSpawned with g_block_list := [⟨7, 2⟩] }).g_block_list
          ++ ⟨6 % 256, DISPLAY_WIDTH - 1 - k⟩
          :: (moveBlocks^[k]
                { sampleSpawned with g_block_list := sampleTick.g_block_list }).g_block_list) ∧
    (moveBlocks^[DISPLAY_WIDTH] sampleSpawned).g_block_list =
      (moveBlocks^[DISPLAY_WIDTH] { sampleSpawned with g_block_list := [⟨7, 2⟩] }).g_block_list
        ++ (moveBlocks^[DISPLAY_WIDTH]
              { sampleSpawned with g_block_list := sampleTick.g_block_list }).g_block_list) :=
  ⟨by decide, by decide,
    spawned_block_lifetime sampleTick 6 (by decide) sampleSpawned [⟨7, 2⟩] (by decide)⟩

/-! ## Input -/

/-- Button `n` in 1..3 reads as pushed exactly when bit `n` of `PINC` is 0. -/
theorem buttonPushed_bit (pinc : Nat) :
    cTrue (buttonPushed pinc BUTTON_1) = decide (pinc &&& 2 = 0) ∧
    cTrue (buttonPushed pinc BUTTON_2) = decide (pinc &&& 4 = 0) ∧
    cTrue (buttonPushed pinc BUTTON_3) = decide (pinc &&& 8 = 0) := by
  refine ⟨?_, ?_, ?_⟩ <;>
    by_cases h : pinc &&& 2 = 0 <;> by_cases h4 : pinc &&& 4 = 0 <;>
    by_cases h8 : pinc &&& 8 = 0 <;>
    simp [buttonPushed, cTrue, BUTTON_1, BUTTON_2, BUTTON_3, PC1, h, h4, h8]

/-- C10: `handleInput` changes only `spaceship_position`; the new position is
one less when button 1 is pushed and the position is above 0, else one more
when button 1 is not pushed, button 3 is pushed and the position is below 7,
else the old one.  At position 0 a push of button 1 changes nothing, at
position 7 a push of button 3 alone changes nothing, with both buttons pushed
only the move up is made, and a position in 0..7 stays in 0..7. -/
theorem handleInput_spec (a b : Nat) (s : Sys) :
    handleInput a b s =
      { s with g_game_state :=
          { s.g_game_state with spaceship_position :=
              if (cTrue (buttonPushed a BUTTON_1) = true ∧ s.g_game_state.spaceship_position > 0) then
                s.g_game_state.spaceship_position - 1
              else if (cTrue (buttonPushed a BUTTON_1) = false ∧
                  cTrue (buttonPushed b BUTTON_3) = true ∧
                  s.g_game_state.spaceship_position < 7) then
                s.g_game_state.spaceship_position + 1
              else s.g_game_state.spaceship_position } } ∧
    (s.g_game_state.spaceship_position = 0 → cTrue (buttonPushed a BUTTON_1) = true →
      handleInput a b s = s) ∧
    (s.g_game_state.spaceship_position = 7 → cTrue (buttonPushed a BUTTON_1) = false →
      cTrue (buttonPushed b BUTTON_3) = true → handleInput a b s = s) ∧
    (cTrue (buttonPushed a BUTTON_1) = true → cTrue (buttonPushed b BUTTON_3) = true →
      (handleInput a b s).g_game_state.spaceship_position
        = s.g_game_state.spaceship_position - 1) ∧
    (s.g_game_state.spaceship_position ≤ 7 →
      (handleInput a b s).g_game_state.spaceship_position ≤ 7) := by
  have hcount : SPACESHIP_POSITION_COUNT - 1 = 7 := rfl
  refine ⟨?_, ?_, ?_, ?_, ?_⟩
  · unfold handleInput
    rw [hcount]
    cases hu : cTrue (buttonPushed a BUTTON_1) <;> cases hd : cTrue (buttonPushed b BUTTON_3) <;>
      by_cases h0 : s.g_game_state.spaceship_position > 0 <;>
      by_cases h7 : s.g_game_state.spaceship_position < 7 <;>
      simp [h0, h7]
  · intro h0 hu
    unfold handleInput
    rw [if_pos hu, if_neg (by omega)]
  · intro h7 hu hd
    unfold handleInput
    rw [hcount, if_neg (by simp [hu]), if_pos hd, if_neg (by omega)]
  · intro hu _
    unfold handleInput
    rw [if_pos hu]
    split
    · rfl
    · rename_i h
      have : s.g_game_state.spaceship_position = 0 := by omega
      rw [this]
  · intro hle
    unfold handleInput
    rw [hcount]
    split
    · split
      · show s.g_game_state.spaceship_position - 1 ≤ 7
        omega
      · exact hle
    · split
      · split
        · show s.g_game_state.spaceship_position + 1 ≤ 7
          omega
        · exact hle
      · exact hle

/-- Witness for `handleInput_spec`: in the sample state (position 4) a push of
button 1 gives position 3, a push of button 3 alone gives position 5, and a
push of both gives position 3; at the borders nothing moves. -/
theorem handleInput_spec_witness :
    (handleInput 13 15 sampleTick).g_game_state.spaceship_position = 3 ∧
    (handleInput 15 7 sampleTick).g_game_state.spaceship_position = 5 ∧
    (handleInput 5 5 sampleTick).g_game_state.spaceship_position
      = sampleTick.g_game_state.spaceship_position - 1 ∧
    (handleInput 5 5 sampleTick).g_game_state.spaceship_position ≤ 7 ∧
    handleInput 13 15 sampleTop = sampleTop ∧
    handleInput 15 7 sampleBottom = sampleBottom :=
  ⟨by decide, by decide,
    (handleInput_spec 5 5 sampleTick).2.2.2.1 (by decide) (by decide),
    (handleInput_spec 5 5 sampleTick).2.2.2.2 (by decide),
    (handleInput_spec 13 15 sampleTop).2.1 (by decide) (by decide),
    (handleInput_spec 15 7 sampleBottom).2.2.1 (by decide) (by decide) (by decide)⟩

/-! ## Spawn chance -/

/-- Up to level 45 the sum `30 + 5 * level` fits a `uint8_t` and the cap
works as written. -/
theorem spawn_chance_small (level : Nat) (h : level ≤ 45) :
    spawn_chance level = min 80 (30 + 5 * level) := by
  have hfit : u8 (BLOCK_SPAWN_PROBABILITY + level * 5) = 30 + 5 * level := by
    unfold u8 BLOCK_SPAWN_PROBABILITY
    rw [Nat.mod_eq_of_lt (by omega)]
    omega
  unfold spawn_chance
  simp only [hfit]
  split
  · rw [Nat.min_eq_left (by omega)]
  · rw [Nat.min_eq_right (by omega)]

/-- C2 (the code at level 100): the sum 530 is stored into the `uint8_t`
`spawn_chance` as 18 before the cap is tested, so the spawn chance is 18, not
`min 80 (30 + 5 * 100) = 80`. -/
theorem spawn_chance_at_100 :
    spawn_chance 100 = 18 ∧ min 80 (30 + 5 * 100) = 80 ∧
    spawn_chance 100 ≠ min 80 (30 + 5 * 100) := by
  decide

/-! ## Level selection -/

/-- Below full scale the potentiometer level is in 1..MAX_LEVEL. -/
theorem potLevel_range (pot_value : Nat) (h : pot_value ≤ 1022) :
    1 ≤ potLevel pot_value ∧ potLevel pot_value ≤ MAX_LEVEL := by
  have h1 : u16 pot_value = pot_value := Nat.mod_eq_of_lt (by omega)
  have h2 : u16 (pot_value * MAX_LEVEL) = pot_value * 10 := Nat.mod_eq_of_lt (by
    unfold MAX_LEVEL; omega)
  have h3 : pot_value * 10 / 1023 ≤ 9 := by omega
  have h4 : u16 (pot_value * 10 / 1023 + 1) = pot_value * 10 / 1023 + 1 :=
    Nat.mod_eq_of_lt (by omega)
  have h5 : u8 (pot_value * 10 / 1023 + 1) = pot_value * 10 / 1023 + 1 :=
    Nat.mod_eq_of_lt (by omega)
  unfold potLevel
  rw [h1, h2, h4, h5]
  unfold MAX_LEVEL
  omega

/-- C4 (the code at full scale): the reading 1023 gives level 11, above
MAX_LEVEL, and when the middle button confirms in the first pass of the loop
this level is written to the game state. -/
theorem potLevel_full_scale :
    potLevel 1023 = 11 ∧ ¬ (potLevel 1023 ≤ MAX_LEVEL) ∧
    (selectLevel 1023 [⟨1023, 1, 15, 15, 11⟩]
        (initGame [] [] [255, 255, 255, 255] 0 0)).map (fun s => s.g_game_state.level)
      = some 11 := by
  decide

/-! ## Tick period -/

/-- Up to level 13 the difference `800 - 60 * level` is positive and the
floor works as written. -/
theorem game_speed_small (level : Nat) (h : level ≤ 13) :
    game_speed level = max 150 (BASE_GAME_SPEED - 60 * level) := by
  unfold game_speed u8 BASE_GAME_SPEED
  interval_cases level <;> decide

/-- C13 (the code at level 14): the difference 800 - 840 = -40 is stored into
the `uint16_t` `game_speed` as 65496 before the floor is tested, so the
period is 65496 ms, not `max 150 (800 - 60 * 14) = 150`, and it is above
800. -/
theorem game_speed_at_14 :
    game_speed 14 = 65496 ∧ max 150 (BASE_GAME_SPEED - 60 * 14) = 150 ∧
    game_speed 14 ≠ max 150 (BASE_GAME_SPEED - 60 * 14) ∧ ¬ (game_speed 14 ≤ 800) := by
  decide

/-! ## Level progression -/

/-- As long as `blocks_dodged / 10 + level` fits a `uint8_t`, the level
progression step adopts that sum exactly when it is above the level and at
most MAX_LEVEL. -/
theorem levelUp_small (s : Sys)
    (h : s.g_game_state.blocks_dodged / 10 + s.g_game_state.level < 256) :
    (levelUp s).g_game_state.level =
      if s.g_game_state.level + s.g_game_state.blocks_dodged / 10 > s.g_game_state.level ∧
          s.g_game_state.level + s.g_game_state.blocks_dodged / 10 ≤ MAX_LEVEL
      then s.g_game_state.level + s.g_game_state.blocks_dodged / 10
      else s.g_game_state.level := by
  have hfit : u8 (u32 (s.g_game_state.blocks_dodged / 10 + s.g_game_state.level))
      = s.g_game_state.level + s.g_game_state.blocks_dodged / 10 := by
    unfold u8 u32
    omega
  rw [levelUp_level, hfit]

/-- C17 (the code at level 9 with 2570 blocks dodged): the sum 9 + 257 = 266
is above MAX_LEVEL, but it is stored into the `uint8_t` `new_level` as 10
before the test, so the step sets the level to 10 instead of leaving it
at 9. -/
theorem levelUp_wraps :
    (1 ≤ sampleStuck.g_game_state.level ∧ sampleStuck.g_game_state.level ≤ MAX_LEVEL) ∧
    sampleStuck.g_game_state.level + sampleStuck.g_game_state.blocks_dodged / 10 = 266 ∧
    ¬ (sampleStuck.g_game_state.level + sampleStuck.g_game_state.blocks_dodged / 10 ≤ MAX_LEVEL) ∧
    sampleStuck.g_game_state.level = 9 ∧
    (levelUp sampleStuck).g_game_state.level = 10 ∧
    (updateGame sampleStuck).g_game_state.level = 10 := by
  decide

/-! ## LEDs: numbers out of range -/

/-- C15: for every LED number outside 0..3 (negative or at least 4),
`enableLed`, `lightUpLed`, `lightDownLed` and `lightToggleOneLed` leave
`DDRB` and `PORTB` as they are, and `isLightOn` returns 0. -/
theorem led_out_of_range (lednumber : Int) (io : Ports)
    (h : lednumber < 0 ∨ lednumber ≥ 4) :
    enableLed lednumber io = io ∧ lightUpLed lednumber io = io ∧
    lightDownLed lednumber io = io ∧ lightToggleOneLed lednumber io = io ∧
    isLightOn lednumber io = 0 := by
  have h1 : lednumber < 0 ∨ lednumber > (NUMBER_OF_LEDS : Int) - 1 := by
    unfold NUMBER_OF_LEDS
    rcases h with h | h
    · exact Or.inl h
    · exact Or.inr (by push_cast; omega)
  have h2 : lednumber < 0 ∨ lednumber > 3 := by omega
  refine ⟨?_, ?_, ?_, ?_, ?_⟩
  · unfold enableLed; rw [if_pos h1]
  · unfold lightUpLed; rw [if_pos h1]
  · unfold lightDownLed; rw [if_pos h2]
  · unfold lightToggleOneLed; rw [if_pos h1]
  · unfold isLightOn; rw [if_pos h1]

/-- Witness for `led_out_of_range`: LED number 4 and LED number -1 on ports
with all LEDs enabled and LED 0 lit. -/
theorem led_out_of_range_witness :
    (enableLed 4 ⟨60, 56⟩ = ⟨60, 56⟩ ∧ lightUpLed 4 ⟨60, 56⟩ = ⟨60, 56⟩ ∧
      lightDownLed 4 ⟨60, 56⟩ = ⟨60, 56⟩ ∧ lightToggleOneLed 4 ⟨60, 56⟩ = ⟨60, 56⟩ ∧
      isLightOn 4 ⟨60, 56⟩ = 0) ∧
    (enableLed (-1) ⟨60, 56⟩ = ⟨60, 56⟩ ∧ lightUpLed (-1) ⟨60, 56⟩ = ⟨60, 56⟩ ∧
      lightDownLed (-1) ⟨60, 56⟩ = ⟨60, 56⟩ ∧ lightToggleOneLed (-1) ⟨60, 56⟩ = ⟨60, 56⟩ ∧
      isLightOn (-1) ⟨60, 56⟩ = 0) :=
  ⟨led_out_of_range 4 ⟨60, 56⟩ (Or.inr (by decide)),
    led_out_of_range (-1) ⟨60, 56⟩ (Or.inl (by decide))⟩

/-! ## The move step in full -/

theorem u8_dec_zero (c : Nat) (h : c < 256) : u8 (c + 255) = 255 ↔ c = 0 := by
  unfold u8; omega

theorem u8_dec_pos (c : Nat) (h : c < 256) (h0 : c ≠ 0) : u8 (c + 255) = c - 1 := by
  unfold u8; omega

/-- For `uint8_t` columns the nodes that leave the screen are the nodes in
column 0. -/
theorem offScreen_eq_count (l : List Block) (h : ∀ b ∈ l, b.column < 256) :
    offScreen l = l.countP (fun b => decide (b.column = 0)) := by
  unfold offScreen
  apply List.countP_congr
  intro b hb
  simp only [decide_eq_true_eq]
  exact u8_dec_zero b.column (h b hb)

/-- For `uint8_t` columns the list after the move step holds the nodes that
were not in column 0, in order, one column further left. -/
theorem shiftList_eq_filter_map (l : List Block) (h : ∀ b ∈ l, b.column < 256) :
    shiftList l =
      (l.filter (fun b => decide (b.column ≠ 0))).map
        (fun b => { position := b.position, column := b.column - 1 }) := by
  induction l with
  | nil => rfl
  | cons b rest ih =>
    have hb : b.column < 256 := h b (List.mem_cons_self _ _)
    have hrest : ∀ x ∈ rest, x.column < 256 := fun x hx => h x (List.mem_cons_of_mem _ hx)
    have ih' := ih hrest
    unfold shiftList at ih' ⊢
    by_cases h0 : b.column = 0
    · have hz : u8 (b.column + 255) = 255 := (u8_dec_zero b.column hb).mpr h0
      rw [List.filter_cons_of_neg (by simpa using hz),
        List.filter_cons_of_neg (by simpa using h0), ih']
    · have hnz : ¬ u8 (b.column + 255) = 255 := fun hz => h0 ((u8_dec_zero b.column hb).mp hz)
      rw [List.filter_cons_of_pos (by simpa using hnz),
        List.filter_cons_of_pos (by simpa using h0), List.map_cons, List.map_cons, ih',
        u8_dec_pos b.column hb h0]

/-- C16 (counterexample): with `blocks_dodged` at the largest `unsigned long`
value and one block in column 0, `moveBlocks` leaves `blocks_dodged` at 0,
not at the old value plus one. -/
theorem moveBlocks_counter_wraps :
    sampleCounterMax.g_block_list = [⟨2, 0⟩] ∧
    sampleCounterMax.g_game_state.blocks_dodged = 4294967295 ∧
    (moveBlocks sampleCounterMax).g_game_state.blocks_dodged = 0 ∧
    (moveBlocks sampleCounterMax).g_game_state.blocks_dodged
      ≠ sampleCounterMax.g_game_state.blocks_dodged + 1 := by
  decide

/-- C16 (amended): for every block list (columns are `uint8_t`) and game
state, `moveBlocks` yields exactly the blocks whose column was not 0, in
their order, each with column decreased by 1 and position unchanged;
`blocks_dodged` increases by the number `k` of blocks whose column was 0
modulo 2^32 (by exactly `k` when there is no wrap), `score` increases by
`k * 10 * level` modulo 2^16, and `level`, `lives`, `spaceship_position` and
`game_running` are unchanged. -/
theorem moveBlocks_spec (s : Sys)
    (hcol : ∀ b ∈ s.g_block_list, b.column < 256)
    (hscore : s.g_game_state.score < 65536)
    (hbd : s.g_game_state.blocks_dodged < 4294967296) :
    (moveBlocks s).g_block_list =
      (s.g_block_list.filter (fun b => decide (b.column ≠ 0))).map
        (fun b => { position := b.position, column := b.column - 1 }) ∧
    (moveBlocks s).g_game_state.blocks_dodged =
      (s.g_game_state.blocks_dodged
        + s.g_block_list.countP (fun b => decide (b.column = 0))) % 4294967296 ∧
    (s.g_game_state.blocks_dodged
        + s.g_block_list.countP (fun b => decide (b.column = 0)) < 4294967296 →
      (moveBlocks s).g_game_state.blocks_dodged =
        s.g_game_state.blocks_dodged
          + s.g_block_list.countP (fun b => decide (b.column = 0))) ∧
    (moveBlocks s).g_game_state.score =
      (s.g_game_state.score
        + s.g_block_list.countP (fun b => decide (b.column = 0)) * 10 * s.g_game_state.level)
        % 65536 ∧
    (moveBlocks s).g_game_state.level = s.g_game_state.level ∧
    (moveBlocks s).g_game_state.lives = s.g_game_state.lives ∧
    (moveBlocks s).g_game_state.spaceship_position = s.g_game_state.spaceship_position ∧
    (moveBlocks s).g_game_state.game_running = s.g_game_state.game_running := by
  have hk := offScreen_eq_count s.g_block_list hcol
  have hd : (moveBlocks s).g_game_state.blocks_dodged =
      (s.g_game_state.blocks_dodged
        + s.g_block_list.countP (fun b => decide (b.column = 0))) % 4294967296 := by
    rw [moveBlocks_game, moveLoop_dodged _ _ hbd, hk]
    rfl
  obtain ⟨f1, f2, f3, f4⟩ := moveLoop_frame s.g_block_list s.g_game_state
  refine ⟨?_, hd, fun hlt => ?_, ?_, f1, f2, f3, f4⟩
  · rw [moveBlocks_list, moveLoop_list, shiftList_eq_filter_map _ hcol]
  · rw [hd, Nat.mod_eq_of_lt hlt]
  · rw [moveBlocks_game, moveLoop_score _ _ hscore, hk, Nat.mul_assoc]
    rfl

/-- Witness for `moveBlocks_spec`: the sample tick state, in which one of two
blocks leaves the screen. -/
theorem moveBlocks_spec_witness :
    (moveBlocks sampleTick).g_block_list = [⟨4, 0⟩] ∧
    (moveBlocks sampleTick).g_game_state.blocks_dodged = 10 ∧
    (moveBlocks sampleTick).g_game_state.blocks_dodged =
      sampleTick.g_game_state.blocks_dodged
        + sampleTick.g_block_list.countP (fun b => decide (b.column = 0)) ∧
    (moveBlocks sampleTick).g_game_state.score = 100 ∧
    (moveBlocks sampleTick).g_game_state.level = sampleTick.g_game_state.level := by
  have h := moveBlocks_spec sampleTick (by decide) (by decide) (by decide)
  exact ⟨by decide, by decide, h.2.2.1 (by decide), by decide, h.2.2.2.2.1⟩

/-! ## The spawn step in full -/

theorem rand_list (s : Sys) : (rand s).2.g_block_list = s.g_block_list := by
  unfold rand; split <;> rfl

theorem rand_stream_drop (s : Sys) : (rand s).2.rand_stream = s.rand_stream.drop 1 := by
  unfold rand
  split
  · rename_i h; rw [h]; rfl
  · rename_i r rs h; rw [h]; rfl

theorem addBlock_rand (p c : Nat) (s : Sys) :
    (addBlock p c s).rand_stream = s.rand_stream := by
  unfold addBlock malloc
  cases s.malloc_stream with
  | nil => rfl
  | cons ok rest => cases ok <;> rfl

theorem addBlock_list (p c : Nat) (s : Sys) :
    (addBlock p c s).g_block_list = ⟨u8 p, u8 c⟩ :: s.g_block_list ∨
    (addBlock p c s).g_block_list = s.g_block_list := by
  unfold addBlock malloc
  cases s.malloc_stream with
  | nil => exact Or.inl rfl
  | cons ok rest =>
    cases ok
    · exact Or.inr rfl
    · exact Or.inl rfl

/-- The loop of `spawnBlocks` with `n` passes: `passes` of the `n` chance
tests succeed, the new nodes are put in front of the list, and one random
value is drawn per pass plus one per success. -/
theorem spawnLoop_spec (chance n : Nat) (s : Sys) :
    ∃ (new : List Block) (passes : Nat),
      (spawnLoop chance n s).g_block_list = new ++ s.g_block_list ∧
      new.length ≤ passes ∧ passes ≤ n ∧
      (∀ b ∈ new, b.column = DISPLAY_WIDTH - 1 ∧ b.position < SPACESHIP_POSITION_COUNT) ∧
      (spawnLoop chance n s).rand_stream = s.rand_stream.drop (n + passes) := by
  induction n generalizing s with
  | zero =>
    exact ⟨[], 0, rfl, Nat.le_refl _, Nat.le_refl _,
      fun b hb => absurd hb (List.not_mem_nil b), rfl⟩
  | succ n ih =>
    unfold spawnLoop
    simp only []
    split
    · obtain ⟨new, passes, hl, hlen, hp, hall, hr⟩ :=
        ih (addBlock ((rand (rand s).2).1 % SPACESHIP_POSITION_COUNT) (DISPLAY_WIDTH - 1)
          (rand (rand s).2).2)
      have hstream : (spawnLoop chance n
          (addBlock ((rand (rand s).2).1 % SPACESHIP_POSITION_COUNT) (DISPLAY_WIDTH - 1)
            (rand (rand s).2).2)).rand_stream = s.rand_stream.drop (n + 1 + (passes + 1)) := by
        rw [hr, addBlock_rand, rand_stream_drop, rand_stream_drop, List.drop_drop,
          List.drop_drop]
        congr 1
        omega
      rcases addBlock_list ((rand (rand s).2).1 % SPACESHIP_POSITION_COUNT) (DISPLAY_WIDTH - 1)
          (rand (rand s).2).2 with ha | ha
      · refine ⟨new ++ [⟨u8 ((rand (rand s).2).1 % SPACESHIP_POSITION_COUNT),
            u8 (DISPLAY_WIDTH - 1)⟩], passes + 1, ?_, ?_, by omega, ?_, hstream⟩
        · rw [hl, ha, rand_list, rand_list, List.append_assoc]
          rfl
        · rw [List.length_append, List.length_singleton]
          omega
        · intro b hb
          rcases List.mem_append.mp hb with hb | hb
          · exact hall b hb
          · rw [List.mem_singleton.mp hb]
            refine ⟨rfl, ?_⟩
            show u8 ((rand (rand s).2).1 % SPACESHIP_POSITION_COUNT) < SPACESHIP_POSITION_COUNT
            unfold u8 SPACESHIP_POSITION_COUNT
            omega
      · refine ⟨new, passes + 1, ?_, by omega, by omega, hall, hstream⟩
        rw [hl, ha, rand_list, rand_list]
    · obtain ⟨new, passes, hl, hlen, hp, hall, hr⟩ := ih (rand s).2
      refine ⟨new, passes, ?_, hlen, by omega, hall, ?_⟩
      · rw [hl, rand_list]
      · rw [hr, rand_stream_drop, List.drop_drop]
        congr 1
        omega

/-- C18: for every (8-bit) level and all random values, one call of
`spawnBlocks` runs its loop exactly `level/3 + 1` times (one chance value is
drawn per attempt, one more for each attempt that passes the chance test) and
adds at most that many blocks; every added block has column
`DISPLAY_WIDTH - 1` and a position in 0..7, and the blocks that were in the
list stay, unchanged and in order, behind the new ones. -/
theorem spawnBlocks_spec (s : Sys) (h : s.g_game_state.level < 256) :
    max_spawns s.g_game_state.level = s.g_game_state.level / 3 + 1 ∧
    spawnBlocks s =
      spawnLoop (spawn_chance s.g_game_state.level) (s.g_game_state.level / 3 + 1) s ∧
    ∃ (new : List Block) (passes : Nat),
      (spawnBlocks s).g_block_list = new ++ s.g_block_list ∧
      new.length ≤ passes ∧ passes ≤ s.g_game_state.level / 3 + 1 ∧
      (∀ b ∈ new, b.column = 3 ∧ b.position < 8) ∧
      (spawnBlocks s).rand_stream
        = s.rand_stream.drop (s.g_game_state.level / 3 + 1 + passes) := by
  have hm : max_spawns s.g_game_state.level = s.g_game_state.level / 3 + 1 := by
    unfold max_spawns u8
    omega
  refine ⟨hm, ?_, ?_⟩
  · unfold spawnBlocks
    rw [hm]
  · unfold spawnBlocks
    rw [hm]
    exact spawnLoop_spec _ _ s

/-- Witness for `spawnBlocks_spec`: at level 3 with random values 10, 5 (a
spawn at position 5) and 90 (no spawn), two attempts add one block. -/
theorem spawnBlocks_spec_witness :
    sampleSpawn.g_game_state.level < 256 ∧
    (spawnBlocks sampleSpawn).g_block_list = ⟨5, 3⟩ :: sampleSpawn.g_block_list ∧
    (spawnBlocks sampleSpawn).rand_stream = [77] ∧
    (max_spawns sampleSpawn.g_game_state.level = sampleSpawn.g_game_state.level / 3 + 1 ∧
    spawnBlocks sampleSpawn =
      spawnLoop (spawn_chance sampleSpawn.g_game_state.level)
        (sampleSpawn.g_game_state.level / 3 + 1) sampleSpawn ∧
    ∃ (new : List Block) (passes : Nat),
      (spawnBlocks sampleSpawn).g_block_list = new ++ sampleSpawn.g_block_list ∧
      new.length ≤ passes ∧ passes ≤ sampleSpawn.g_game_state.level / 3 + 1 ∧
      (∀ b ∈ new, b.column = 3 ∧ b.position < 8) ∧
      (spawnBlocks sampleSpawn).rand_stream
        = sampleSpawn.rand_stream.drop (sampleSpawn.g_game_state.level / 3 + 1 + passes)) :=
  ⟨by decide, by decide, by decide, spawnBlocks_spec sampleSpawn (by decide)⟩

/-! ## Bit lemmas for 8-bit registers -/

theorem testBit_high_u8 (x r : Nat) (hx : x < 256) (hr : 8 ≤ r) : x.testBit r = false := by
  apply Nat.testBit_lt_two_pow
  calc x < 2 ^ 8 := hx
    _ ≤ 2 ^ r := Nat.pow_le_pow_right (by decide) hr

/-- Bits of `x & ~pat` stored into a byte. -/
theorem testBit_u8_clear (x pat r : Nat) (hx : x < 256) (hp : pat < 256) :
    (u8 (x &&& not16 pat)).testBit r = (x.testBit r && !pat.testBit r) := by
  have h1 : not16 pat = 2 ^ 16 - (pat + 1) := by
    unfold not16 u16
    omega
  have h2 : u8 (x &&& not16 pat) = (x &&& (2 ^ 16 - (pat + 1))) % 2 ^ 8 := by
    rw [h1]; rfl
  rw [h2, Nat.testBit_mod_two_pow, Nat.testBit_and,
    Nat.testBit_two_pow_sub_succ (by omega : pat < 2 ^ 16)]
  by_cases hr : r < 8
  · have hr16 : r < 16 := by omega
    simp [hr, hr16]
  · simp [hr, testBit_high_u8 x r hx (by omega)]

/-- Bits of `x | (1 << k)` stored into a byte. -/
theorem testBit_u8_or (x k r : Nat) (hx : x < 256) (hk : k < 8) :
    (u8 (x ||| 2 ^ k)).testBit r = (x.testBit r || decide (k = r)) := by
  have h2 : u8 (x ||| 2 ^ k) = (x ||| 2 ^ k) % 2 ^ 8 := rfl
  rw [h2, Nat.testBit_mod_two_pow, Nat.testBit_or, Nat.testBit_two_pow]
  by_cases hr : r < 8
  · simp [hr]
  · have hne : ¬ k = r := by omega
    simp [hr, hne, testBit_high_u8 x r hx (by omega)]

/-- The test `x & (1 << k)` is zero exactly when bit `k` of `x` is clear. -/
theorem and_two_pow_eq_zero (x k : Nat) : x &&& 2 ^ k = 0 ↔ x.testBit k = false := by
  constructor
  · intro h
    have h1 : (x &&& 2 ^ k).testBit k = false := by rw [h]; exact Nat.zero_testBit k
    rw [Nat.testBit_and, Nat.testBit_two_pow_self, Bool.and_true] at h1
    exact h1
  · intro h
    apply Nat.eq_of_testBit_eq
    intro i
    rw [Nat.testBit_and, Nat.testBit_two_pow, Nat.zero_testBit]
    by_cases hki : k = i
    · subst hki; simp [h]
    · simp [hki]

/-! ## LEDs: switching on and off -/

theorem led_in_range (n : Int) (h0 : 0 ≤ n) (h3 : n ≤ 3) :
    ¬ (n < 0 ∨ n > (NUMBER_OF_LEDS : Int) - 1) ∧ ¬ (n < 0 ∨ n > 3) ∧ PB2 + n.toNat < 8 := by
  unfold NUMBER_OF_LEDS PB2
  refine ⟨?_, ?_, ?_⟩
  · push_cast; omega
  · omega
  · omega

theorem isLightOn_eq (m : Int) (h0 : 0 ≤ m) (h3 : m ≤ 3) (io : Ports) :
    isLightOn m io = if io.PORTB.testBit (PB2 + m.toNat) = false then 1 else 0 := by
  unfold isLightOn ledMask
  rw [if_neg (led_in_range m h0 h3).1, Nat.one_shiftLeft]
  by_cases hb : io.PORTB.testBit (PB2 + m.toNat) = false
  · rw [if_pos hb, if_pos ((and_two_pow_eq_zero _ _).mpr hb)]
  · rw [if_neg hb, if_neg (fun hz => hb ((and_two_pow_eq_zero _ _).mp hz))]

theorem lightUpLed_bits (n : Int) (h0 : 0 ≤ n) (h3 : n ≤ 3) (io : Ports)
    (hp : io.PORTB < 256) (j : Nat) :
    (lightUpLed n io).PORTB.testBit j
      = (io.PORTB.testBit j && !decide (PB2 + n.toNat = j)) := by
  have hk := (led_in_range n h0 h3).2.2
  have hmask : (2 : Nat) ^ (PB2 + n.toNat) < 256 :=
    Nat.pow_lt_pow_right (by decide) hk
  unfold lightUpLed ledMask
  rw [if_neg (led_in_range n h0 h3).1, Nat.one_shiftLeft]
  show (u8 (io.PORTB &&& not16 (2 ^ (PB2 + n.toNat)))).testBit j = _
  rw [testBit_u8_clear _ _ _ hp hmask, Nat.testBit_two_pow]

theorem lightDownLed_bits (n : Int) (h0 : 0 ≤ n) (h3 : n ≤ 3) (io : Ports)
    (hp : io.PORTB < 256) (j : Nat) :
    (lightDownLed n io).PORTB.testBit j
      = (io.PORTB.testBit j || decide (PB2 + n.toNat = j)) := by
  have hk := (led_in_range n h0 h3).2.2
  unfold lightDownLed ledMask
  rw [if_neg (led_in_range n h0 h3).2.1, Nat.one_shiftLeft]
  show (u8 (io.PORTB ||| 2 ^ (PB2 + n.toNat))).testBit j = _
  rw [testBit_u8_or _ _ _ hp hk]

/-- C14: for every LED number `n` in 0..3 and every value of `PORTB`, after
`lightUpLed n` the call `isLightOn n` returns 1, after `lightDownLed n` it
returns 0, and in both cases `isLightOn m` is unchanged for every other LED
`m` in 0..3 and every bit of `PORTB` other than bit `PB2 + n` is
unchanged. -/
theorem led_on_off (n : Int) (h0 : 0 ≤ n) (h3 : n ≤ 3) (io : Ports) (hp : io.PORTB < 256) :
    isLightOn n (lightUpLed n io) = 1 ∧
    isLightOn n (lightDownLed n io) = 0 ∧
    (∀ m : Int, 0 ≤ m → m ≤ 3 → m ≠ n →
      isLightOn m (lightUpLed n io) = isLightOn m io ∧
      isLightOn m (lightDownLed n io) = isLightOn m io) ∧
    (∀ j : Nat, j ≠ PB2 + n.toNat →
      (lightUpLed n io).PORTB.testBit j = io.PORTB.testBit j ∧
      (lightDownLed n io).PORTB.testBit j = io.PORTB.testBit j) := by
  have hother : ∀ j : Nat, j ≠ PB2 + n.toNat →
      (lightUpLed n io).PORTB.testBit j = io.PORTB.testBit j ∧
      (lightDownLed n io).PORTB.testBit j = io.PORTB.testBit j := by
    intro j hj
    have hne : ¬ PB2 + n.toNat = j := fun h => hj h.symm
    rw [lightUpLed_bits n h0 h3 io hp, lightDownLed_bits n h0 h3 io hp]
    simp [hne]
  refine ⟨?_, ?_, ?_, hother⟩
  · rw [isLightOn_eq n h0 h3, lightUpLed_bits n h0 h3 io hp]
    simp
  · rw [isLightOn_eq n h0 h3, lightDownLed_bits n h0 h3 io hp]
    simp
  · intro m hm0 hm3 hmn
    have hj : PB2 + m.toNat ≠ PB2 + n.toNat := by omega
    rw [isLightOn_eq m hm0 hm3, isLightOn_eq m hm0 hm3, isLightOn_eq m hm0 hm3,
      (hother _ hj).1, (hother _ hj).2]
    exact ⟨rfl, rfl⟩

/-- Witness for `led_on_off`: LED 1 on a port with all four LEDs off
(`PORTB` = 60), as in `test_led_status_check`. -/
theorem led_on_off_witness :
    (lightUpLed 1 ⟨60, 60⟩).PORTB = 52 ∧
    (isLightOn 1 (lightUpLed 1 ⟨60, 60⟩) = 1 ∧
    isLightOn 1 (lightDownLed 1 ⟨60, 60⟩) = 0 ∧
    (∀ m : Int, 0 ≤ m → m ≤ 3 → m ≠ 1 →
      isLightOn m (lightUpLed 1 ⟨60, 60⟩) = isLightOn m ⟨60, 60⟩ ∧
      isLightOn m (lightDownLed 1 ⟨60, 60⟩) = isLightOn m ⟨60, 60⟩) ∧
    (∀ j : Nat, j ≠ PB2 + (1 : Int).toNat →
      (lightUpLed 1 ⟨60, 60⟩).PORTB.testBit j = (60 : Nat).testBit j ∧
      (lightDownLed 1 ⟨60, 60⟩).PORTB.testBit j = (60 : Nat).testBit j)) :=
  ⟨by decide, led_on_off 1 (by decide) (by decide) ⟨60, 60⟩ (by decide)⟩

/-! ## Renderer -/

theorem getD_set_byte (l : List Nat) (i j a : Nat) (h : i < l.length) :
    (l.set i a).getD j 0 = if i = j then a else l.getD j 0 := by
  simp only [List.getD_eq_getElem?_getD, List.getElem?_set]
  split
  · simp [h]
  · rfl

/-- The pattern `0x01 << position` stored into a byte has bit `r` set exactly
when `r` is the position (for `r` below 8). -/
theorem testBit_pattern (p r : Nat) :
    (u8 (1 <<< p)).testBit r = (decide (r < 8) && decide (p = r)) := by
  have h : u8 (1 <<< p) = 2 ^ p % 2 ^ 8 := by rw [Nat.one_shiftLeft]; rfl
  rw [h, Nat.testBit_mod_two_pow, Nat.testBit_two_pow]

theorem pattern_lt (p : Nat) : u8 (1 <<< p) < 256 := Nat.mod_lt _ (by decide)

/-- One statement `buf[col] &= ~(0x01 << p)` on a buffer of four bytes. -/
theorem clearBits_bits (buf : List Nat) (col p : Nat) (hlen : buf.length = 4)
    (hbytes : ∀ c, c < 4 → buf.getD c 0 < 256) (hcol : col < 4) :
    (clearBits buf col (u8 (1 <<< p))).length = 4 ∧
    (∀ c, c < 4 → (clearBits buf col (u8 (1 <<< p))).getD c 0 < 256) ∧
    (∀ c r, c < 4 → r < 8 →
      ((clearBits buf col (u8 (1 <<< p))).getD c 0).testBit r
        = ((buf.getD c 0).testBit r && !(decide (col = c) && decide (p = r)))) := by
  have hset : ∀ c, (clearBits buf col (u8 (1 <<< p))).getD c 0
      = if col = c then u8 (buf.getD col 0 &&& not16 (u8 (1 <<< p))) else buf.getD c 0 := by
    intro c
    unfold clearBits
    exact getD_set_byte buf col c _ (by omega)
  refine ⟨?_, ?_, ?_⟩
  · unfold clearBits
    rw [List.length_set, hlen]
  · intro c hc
    rw [hset c]
    split
    · exact Nat.mod_lt _ (by decide)
    · exact hbytes c hc
  · intro c r hc hr
    rw [hset c]
    by_cases hcc : col = c
    · subst hcc
      rw [if_pos rfl, testBit_u8_clear _ _ _ (hbytes col hcol) (pattern_lt p), testBit_pattern]
      simp [hr]
    · rw [if_neg hcc]
      simp [hcc]

/-- The loop of `renderDisplay`: bit `r` of byte `c` stays set exactly when
it was set and no node is at column `c`, position `r`. -/
theorem renderBlocks_bits (l : List Block) (buf : List Nat) (hlen : buf.length = 4)
    (hbytes : ∀ c, c < 4 → buf.getD c 0 < 256) :
    (renderBlocks l buf).length = 4 ∧
    (∀ c, c < 4 → (renderBlocks l buf).getD c 0 < 256) ∧
    (∀ c r, c < 4 → r < 8 →
      ((renderBlocks l buf).getD c 0).testBit r
        = ((buf.getD c 0).testBit r &&
            !l.any (fun b => decide (b.column = c) && decide (b.position = r)))) := by
  induction l generalizing buf with
  | nil =>
    refine ⟨hlen, hbytes, fun c r _ _ => ?_⟩
    simp [renderBlocks]
  | cons b rest ih =>
    unfold renderBlocks
    by_cases hb : b.column < DISPLAY_WIDTH
    · rw [if_pos hb]
      obtain ⟨h1, h2, h3⟩ := clearBits_bits buf b.column b.position hlen hbytes hb
      obtain ⟨i1, i2, i3⟩ := ih _ h1 h2
      refine ⟨i1, i2, fun c r hc hr => ?_⟩
      rw [i3 c r hc hr, h3 c r hc hr, List.any_cons]
      cases (buf.getD c 0).testBit r <;> simp
    · rw [if_neg hb]
      obtain ⟨i1, i2, i3⟩ := ih buf hlen hbytes
      refine ⟨i1, i2, fun c r hc hr => ?_⟩
      have hne : ¬ b.column = c := by
        intro h
        rw [h] at hb
        exact hb hc
      rw [i3 c r hc hr, List.any_cons]
      simp [hne]

theorem show_spaceship_iff (s : Sys) (ht : s.g_timer_counter < 65536) :
    show_spaceship s = true ↔
      ((0 < s.g_collision_flash ∧ s.g_collision_flash % 10 < 5) ∨
        (s.g_collision_flash = 0 ∧ (s.g_timer_counter / 25) % 2 = 0)) := by
  have hu : u16 s.g_timer_counter = s.g_timer_counter := Nat.mod_eq_of_lt ht
  unfold show_spaceship
  rw [hu]
  by_cases hf : s.g_collision_flash > 0
  · rw [if_pos hf]
    simp only [decide_eq_true_eq]
    constructor
    · intro h; exact Or.inl ⟨hf, h⟩
    · rintro (⟨_, h⟩ | ⟨h0, _⟩)
      · exact h
      · omega
  · rw [if_neg hf]
    simp only [decide_eq_true_eq]
    constructor
    · intro h; exact Or.inr ⟨by omega, h⟩
    · rintro (⟨h0, _⟩ | ⟨_, h⟩)
      · omega
      · exact h

theorem blank_buffer :
    ([255, 255, 255, 255] : List Nat).length = 4 ∧
    (∀ c, c < 4 → ([255, 255, 255, 255] : List Nat).getD c 0 < 256) ∧
    (∀ c r, c < 4 → r < 8 → (([255, 255, 255, 255] : List Nat).getD c 0).testBit r = true) := by
  refine ⟨rfl, ?_, ?_⟩
  · intro c hc
    interval_cases c <;> decide
  · intro c r hc hr
    interval_cases c <;> interval_cases r <;> rfl

/-- The bits of the buffer that `renderDisplay` leaves. -/
theorem renderDisplay_bits (s : Sys) (c r : Nat) (hc : c < 4) (hr : r < 8) :
    ((renderDisplay s).g_display_buffer.getD c 0).testBit r
      = !((show_spaceship s && (decide (c = 0) && decide (s.g_game_state.spaceship_position = r)))
          || s.g_block_list.any (fun b => decide (b.column = c) && decide (b.position = r))) := by
  obtain ⟨b1, b2, b3⟩ := blank_buffer
  unfold renderDisplay
  simp only []
  cases hs : show_spaceship s
  · obtain ⟨_, _, i3⟩ := renderBlocks_bits s.g_block_list _ b1 b2
    simp only [Bool.false_eq_true, if_false]
    rw [i3 c r hc hr, b3 c r hc hr]
    simp
  · obtain ⟨h1, h2, h3⟩ := clearBits_bits [255, 255, 255, 255] DISPLAY_POS_1
      s.g_game_state.spaceship_position b1 b2 (by decide)
    obtain ⟨_, _, i3⟩ := renderBlocks_bits s.g_block_list _ h1 h2
    simp only [if_true]
    rw [i3 c r hc hr, h3 c r hc hr, b3 c r hc hr]
    have hz : (DISPLAY_POS_1 = c) = (c = 0) := by
      unfold DISPLAY_POS_1
      exact propext ⟨fun h => h.symm, fun h => h.symm⟩
    simp [hz]

/-- C19: `renderDisplay` is a projection of the game state and the block
list: for a ship position in 0..7 and block positions in 0..7, bit `r` of
byte `c` (c in 0..3, r in 0..7) of the buffer is cleared after the call if
and only if the ship is shown and `c = 0`, `r = spaceship_position`, or some
block has column `c` and position `r`; the ship is shown when
`collision_flash % 10 < 5` during a flash and otherwise when
`timer_counter / 25` is even.  The buffer has four bytes, it does not depend
on the buffer's contents before the call, and nothing but the buffer is
written. -/
theorem renderDisplay_spec (s : Sys)
    (_hship : s.g_game_state.spaceship_position < 8)
    (_hpos : ∀ b ∈ s.g_block_list, b.position < 8)
    (ht : s.g_timer_counter < 65536) :
    (∀ c r, c < 4 → r < 8 →
      (((renderDisplay s).g_display_buffer.getD c 0).testBit r = false ↔
        ((c = 0 ∧ r = s.g_game_state.spaceship_position ∧
            ((0 < s.g_collision_flash ∧ s.g_collision_flash % 10 < 5) ∨
              (s.g_collision_flash = 0 ∧ (s.g_timer_counter / 25) % 2 = 0))) ∨
          ∃ b ∈ s.g_block_list, b.column = c ∧ b.position = r))) ∧
    (renderDisplay s).g_display_buffer.length = 4 ∧
    (∀ c, c < 4 → (renderDisplay s).g_display_buffer.getD c 0 < 256) ∧
    (∀ buf : List Nat, renderDisplay { s with g_display_buffer := buf } = renderDisplay s) ∧
    renderDisplay s = { s with g_display_buffer := (renderDisplay s).g_display_buffer } ∧
    (renderDisplay s).g_game_state = s.g_game_state ∧
    (renderDisplay s).g_block_list = s.g_block_list := by
  refine ⟨fun c r hc hr => ?_, ?_, ?_, fun buf => rfl, rfl, rfl, rfl⟩
  · rw [renderDisplay_bits s c r hc hr]
    have hshow := show_spaceship_iff s ht
    constructor
    · intro h
      simp only [Bool.not_eq_false', Bool.or_eq_true, Bool.and_eq_true, decide_eq_true_eq,
        List.any_eq_true] at h
      rcases h with ⟨h1, h2, h3⟩ | ⟨b, hb, hbc, hbr⟩
      · exact Or.inl ⟨h2, h3.symm, hshow.mp h1⟩
      · exact Or.inr ⟨b, hb, hbc, hbr⟩
    · intro h
      simp only [Bool.not_eq_false', Bool.or_eq_true, Bool.and_eq_true, decide_eq_true_eq,
        List.any_eq_true]
      rcases h with ⟨h1, h2, h3⟩ | ⟨b, hb, hbc, hbr⟩
      · exact Or.inl ⟨hshow.mpr h3, h1, h2.symm⟩
      · exact Or.inr ⟨b, hb, hbc, hbr⟩
  · unfold renderDisplay
    simp only []
    obtain ⟨b1, b2, _⟩ := blank_buffer
    split
    · obtain ⟨h1, h2, _⟩ := clearBits_bits [255, 255, 255, 255] DISPLAY_POS_1
        s.g_game_state.spaceship_position b1 b2 (by decide)
      exact (renderBlocks_bits s.g_block_list _ h1 h2).1
    · exact (renderBlocks_bits s.g_block_list _ b1 b2).1
  · unfold renderDisplay
    simp only []
    obtain ⟨b1, b2, _⟩ := blank_buffer
    split
    · obtain ⟨h1, h2, _⟩ := clearBits_bits [255, 255, 255, 255] DISPLAY_POS_1
        s.g_game_state.spaceship_position b1 b2 (by decide)
      exact (renderBlocks_bits s.g_block_list _ h1 h2).2.1
    · exact (renderBlocks_bits s.g_block_list _ b1 b2).2.1

/-- Witness for `renderDisplay_spec`: the sample state with the ship shown
(position 4) and blocks at (position 4, column 1) and (position 2,
column 0). -/
theorem renderDisplay_spec_witness :
    (renderDisplay sampleRender).g_display_buffer = [235, 239, 255, 255] ∧
    (renderDisplay { sampleRender with g_display_buffer := [0, 0, 0, 0] }).g_display_buffer
      = [235, 239, 255, 255] ∧
    (∀ c r, c < 4 → r < 8 →
      (((renderDisplay sampleRender).g_display_buffer.getD c 0).testBit r = false ↔
        ((c = 0 ∧ r = sampleRender.g_game_state.spaceship_position ∧
            ((0 < sampleRender.g_collision_flash ∧ sampleRender.g_collision_flash % 10 < 5) ∨
              (sampleRender.g_collision_flash = 0 ∧
                (sampleRender.g_timer_counter / 25) % 2 = 0))) ∨
          ∃ b ∈ sampleRender.g_block_list, b.column = c ∧ b.position = r))) :=
  ⟨by decide, by decide,
    (renderDisplay_spec sampleRender (by decide) (by decide) (by decide)).1⟩

/-! ## Coinciding blocks -/

/-- The level after a tick is at most the level before plus `blocks_dodged / 10`
as the tick leaves it, and a tick that leaves `blocks_dodged` below 10 does
not change the level. -/
theorem updateGame_level_step (s : Sys) :
    (updateGame s).g_game_state.level
      ≤ s.g_game_state.level + (updateGame s).g_game_state.blocks_dodged / 10 ∧
    ((updateGame s).g_game_state.blocks_dodged < 10 →
      (updateGame s).g_game_state.level = s.g_game_state.level) := by
  have hl : (updateGame s).g_game_state.level
      = (levelUp (checkCollisions (spawnBlocks (moveBlocks s)))).g_game_state.level := by
    unfold updateGame; rw [displayGameInfo_game]
  have hd : (updateGame s).g_game_state.blocks_dodged
      = (checkCollisions (spawnBlocks (moveBlocks s))).g_game_state.blocks_dodged := by
    unfold updateGame; rw [displayGameInfo_game, (levelUp_frame _).2.2.1]
  rw [hl, hd, levelUp_level, preLevelUp_level]
  unfold u8 u32
  constructor
  · split <;> omega
  · intro h
    split
    · rename_i hc
      omega
    · rfl

theorem renderDisplay_game (s : Sys) : (renderDisplay s).g_game_state = s.g_game_state := rfl

theorem handleInput_level_dodged (a b : Nat) (s : Sys) :
    (handleInput a b s).g_game_state.level = s.g_game_state.level ∧
    (handleInput a b s).g_game_state.blocks_dodged = s.g_game_state.blocks_dodged := by
  unfold handleInput
  split
  · split <;> exact ⟨rfl, rfl⟩
  · split
    · split <;> exact ⟨rfl, rfl⟩
    · exact ⟨rfl, rfl⟩

theorem refreshStage_frame (s : Sys) :
    (refreshStage s).g_game_state = s.g_game_state ∧
    (refreshStage s).g_game_tick_flag = s.g_game_tick_flag := by
  unfold refreshStage
  split <;> exact ⟨rfl, rfl⟩

theorem flashStage_game (s : Sys) : (flashStage s).g_game_state = s.g_game_state := by
  unfold flashStage
  split <;> rfl

theorem inputStage_level_dodged (inp : LoopInput) (s : Sys) :
    (inputStage inp s).g_game_state.level = s.g_game_state.level ∧
    (inputStage inp s).g_game_state.blocks_dodged = s.g_game_state.blocks_dodged := by
  unfold inputStage
  split
  · exact handleInput_level_dodged _ _ s
  · exact ⟨rfl, rfl⟩

theorem playGameBody_level_dodged (inp : LoopInput) (s : Sys) :
    (playGameBody inp s).g_game_state.level
      = (tickStage (refreshStage s)).g_game_state.level ∧
    (playGameBody inp s).g_game_state.blocks_dodged
      = (tickStage (refreshStage s)).g_game_state.blocks_dodged := by
  unfold playGameBody
  rw [flashStage_game]
  exact inputStage_level_dodged _ _

/-- One pass of the play loop raises the level by at most `blocks_dodged / 10`
when it runs a tick, and not at all otherwise. -/
theorem playGameBody_level (inp : LoopInput) (s : Sys) :
    (playGameBody inp s).g_game_state.level
      ≤ s.g_game_state.level + tickBudget inp s := by
  obtain ⟨hl, hd⟩ := playGameBody_level_dodged inp s
  obtain ⟨hg, hf⟩ := refreshStage_frame s
  unfold tickBudget
  rw [hd, hl]
  unfold tickStage
  rw [hf]
  by_cases ht : s.g_game_tick_flag ≠ 0
  · rw [if_pos ht, if_pos ht]
    have h := (updateGame_level_step (refreshStage s)).1
    rw [hg] at h
    exact h
  · rw [if_neg ht, if_neg ht, hg]
    exact Nat.le_refl _

/-- Over the passes of the play loop the level rises by at most the sum of
the values `blocks_dodged / 10` of the ticks that were run. -/
theorem playGame_level (inputs : List LoopInput) (s : Sys) :
    (playGame inputs s).g_game_state.level ≤ s.g_game_state.level + levelBudget inputs s := by
  induction inputs generalizing s with
  | nil => exact Nat.le_refl _
  | cons inp rest ih =>
    unfold playGame levelBudget
    split
    · have h1 := ih (playGameBody inp (interrupts inp s))
      have h2 := playGameBody_level inp (interrupts inp s)
      have h3 : (interrupts inp s).g_game_state.level = s.g_game_state.level := rfl
      omega
    · exact Nat.le_add_right _ _

/-- C11 (counterexample): a round started by `initGame` at level 1 with
`blocks_dodged = 0` in which every tick spawns one block at position 0 and
the ship stays at position 4: after fifteen ticks eleven blocks were dodged
and the level is 3, above `1 + 11 / 10 = 2`. -/
theorem level_outruns_dodged :
    (initGame [] [] [255, 255, 255, 255] 0 0).g_game_state.level = 1 ∧
    (initGame [] [] [255, 255, 255, 255] 0 0).g_game_state.blocks_dodged = 0 ∧
    (playGame fifteenTicks (initGame [] [] [255, 255, 255, 255] 0 0)).g_game_state.level = 3 ∧
    (playGame fifteenTicks
      (initGame [] [] [255, 255, 255, 255] 0 0)).g_game_state.blocks_dodged = 11 ∧
    ¬ ((playGame fifteenTicks (initGame [] [] [255, 255, 255, 255] 0 0)).g_game_state.level
        ≤ 1 + (playGame fifteenTicks
            (initGame [] [] [255, 255, 255, 255] 0 0)).g_game_state.blocks_dodged / 10) := by
  decide

/-- C11 (amended): within a round the level is driven by `blocks_dodged / 10`
tick by tick: a game tick raises the level by at most `blocks_dodged / 10`
(the counter as the tick leaves it; it is not reset by a level-up) and not at
all while `blocks_dodged < 10`, so after any number of passes of the play
loop the level is at most the starting level plus the sum of
`blocks_dodged / 10` over the ticks that were run. -/
theorem level_driven_by_dodged (inputs : List LoopInput) (s : Sys) :
    (playGame inputs s).g_game_state.level ≤ s.g_game_state.level + levelBudget inputs s ∧
    (updateGame s).g_game_state.level
      ≤ s.g_game_state.level + (updateGame s).g_game_state.blocks_dodged / 10 ∧
    ((updateGame s).g_game_state.blocks_dodged < 10 →
      (updateGame s).g_game_state.level = s.g_game_state.level) :=
  ⟨playGame_level inputs s, (updateGame_level_step s).1, (updateGame_level_step s).2⟩

/-- Witness for `level_driven_by_dodged`: the round of fifteen ticks, whose
level budget is 2, and a first tick, which leaves the level at 1. -/
theorem level_driven_by_dodged_witness :
    levelBudget fifteenTicks (initGame [] [] [255, 255, 255, 255] 0 0) = 2 ∧
    (playGame fifteenTicks (initGame [] [] [255, 255, 255, 255] 0 0)).g_game_state.level
      ≤ (initGame [] [] [255, 255, 255, 255] 0 0).g_game_state.level
        + levelBudget fifteenTicks (initGame [] [] [255, 255, 255, 255] 0 0) ∧
    (updateGame (initGame [] [] [255, 255, 255, 255] 0 0)).g_game_state.level
      = (initGame [] [] [255, 255, 255, 255] 0 0).g_game_state.level :=
  ⟨by decide,
    (level_driven_by_dodged fifteenTicks (initGame [] [] [255, 255, 255, 255] 0 0)).1,
    (level_driven_by_dodged [] (initGame [] [] [255, 255, 255, 255] 0 0)).2.2 (by decide)⟩

/-! ## Timer interrupt and the game state pointer -/

/-- Between `initGame` and the end of `gameOver` the pointer is not `NULL`:
the property is kept by every step of `main`. -/
theorem mainStep_keeps_live (inp : MainInput) (c : Ctl)
    (h : c.pc = .atShowTutorial ∨ c.pc = .atSelectLevel ∨ c.pc = .atPlayGame ∨
          c.pc = .atGameOver → c.g_game_state.isSome = true) :
    (mainStep inp c).pc = .atShowTutorial ∨ (mainStep inp c).pc = .atSelectLevel ∨
        (mainStep inp c).pc = .atPlayGame ∨ (mainStep inp c).pc = .atGameOver →
      (mainStep inp c).g_game_state.isSome = true := by
  obtain ⟨pc, t, g, gs⟩ := c
  cases pc <;> cases hm : inp.malloc_ok <;> simp [mainStep, hm] at h ⊢ <;> exact h

/-- C20 (the code after `initInterrupts` and after `gameOver`): once
`initTimers` and `initInterrupts` have run the timer interrupt can be taken,
and `g_game_state` is still `NULL`, so the handler's read of
`g_game_state->level` has no game state behind it; the same holds while
`main` waits for a button after `gameOver` has freed the game state and set
the pointer to `NULL`. -/
theorem timer_reads_null :
    timerCanFire (mainStep sampleMainInput mainStart) = true ∧
    (mainStep sampleMainInput mainStart).g_game_state = none ∧
    timerISR_level (mainStep sampleMainInput mainStart) = none ∧
    (mainRun (List.replicate 7 sampleMainInput) mainStart).pc = .waitButton ∧
    timerCanFire (mainRun (List.replicate 7 sampleMainInput) mainStart) = true ∧
    (mainRun (List.replicate 7 sampleMainInput) mainStart).g_game_state = none ∧
    timerISR_level (mainRun (List.replicate 7 sampleMainInput) mainStart) = none ∧
    timerISR_level (mainRun (List.replicate 5 sampleMainInput) mainStart) = some 3 := by
  decide

/-! ## Button release detection -/

/-- For the ids 1..3 the index `button - 1` is inside a table of three
entries, and the call returns a value and leaves a table of three entries. -/
theorem buttonReleased_in_table (pinc : Nat) (button : Int) (table : List Nat)
    (h1 : 1 ≤ button) (h3 : button ≤ 3) (hlen : table.length = 3) :
    previousStateIndex button < table.length ∧
    ∃ wasPressed table2,
      buttonReleased pinc button table = .done wasPressed table2 ∧ table2.length = 3 ∧
      wasPressed ≤ 1 := by
  have hidx : previousStateIndex button < table.length := by
    unfold previousStateIndex
    omega
  refine ⟨hidx, ?_⟩
  unfold buttonReleased
  rw [if_neg (by omega), List.getElem?_eq_getElem hidx]
  refine ⟨_, _, rfl, ?_, ?_⟩
  · rw [List.length_set, hlen]
  · split <;> omega

/-- C21 (the code at button id 4): the id 4 passes the range check
`button < 1 || button > 4`, the index `button - 1` is 3, and the table
`previousState` has the three entries 0..2, so the read
`previousState[button - 1]` (and the write after it) falls outside the
table. -/
theorem buttonReleased_id_four :
    ¬ ((4 : Int) < 1 ∨ (4 : Int) > 4) ∧
    previousStateInit.length = 3 ∧
    previousStateIndex 4 = 3 ∧
    ¬ (previousStateIndex 4 < previousStateInit.length) ∧
    buttonReleased 15 4 previousStateInit = .outOfBounds 3 ∧
    buttonReleased 15 5 previousStateInit = .noValue ∧
    buttonReleased 7 3 [1, 1, 0] = .done 0 [1, 1, 0] ∧
    buttonReleased 15 3 [1, 1, 0] = .done 1 [1, 1, 1] := by
  decide

end Audiosurf
